import Mathlib

/-!
Shallow embedding of the task-orchestration core of the repository
(`src/api/apps/kb_app.py` and `src/api/apps/document_app.py`), together with
theorems settling the behavioural claims about it.

The persistence layer, the search index and the blob store are modelled as a
single explicit record-store state `DB`; the service-layer functions that the
handlers call but whose code is not part of the source tree are modelled from
the specification (each such definition carries a doc comment starting with
`Modelled from the spec:`).  Fallible external calls (record updates, index
updates) are passed in as explicit boolean oracles.
-/

namespace Ragflow

/-- Modelled from the spec: the run/progress status string codes of the
`TaskStatus` enum (`api.db`, not under `src/`).  The handlers only compare
these strings for equality, so only their distinctness matters. -/
def TaskStatus_UNSTART : String := "0"

/-- Modelled from the spec: the `RUNNING` status code of `TaskStatus`. -/
def TaskStatus_RUNNING : String := "1"

/-- Modelled from the spec: the `CANCEL` status code of `TaskStatus`. -/
def TaskStatus_CANCEL : String := "2"

/-- Modelled from the spec: the `DONE` status code of `TaskStatus`. -/
def TaskStatus_DONE : String := "3"

/-- Modelled from the spec: the `FAIL` status code of `TaskStatus`. -/
def TaskStatus_FAIL : String := "4"

/-- Modelled from the spec: the `table` member of the `ParserType` enum
(`api.db`, not under `src/`). -/
def ParserType_TABLE : String := "table"

/-- Modelled from the spec: the `KNOWLEDGEBASE` member of the `FileSource`
enum (`api.db`, not under `src/`). -/
def FileSource_KNOWLEDGEBASE : String := "knowledgebase"

/-- Modelled from the spec: the reserved synthetic "aggregate" document id
(`GRAPH_RAPTOR_FAKE_DOC_ID` from `api.db.services.task_service`, not under
`src/`), used as the owning document id of knowledge-base-wide Tasks (§3). -/
def GRAPH_RAPTOR_FAKE_DOC_ID : String := "graph_raptor_fake_doc_id"

/-- A work unit in the Task Ledger (`Task` row).  `progress` is a rational
number; `-1` means failed and `1` means done (§3). -/
structure Task where
  id : String
  doc_id : String
  progress : Rat
deriving DecidableEq

/-- A document record (`Document` row): owning knowledge base, assigned
parser and optional pipeline, run-state code, progress bookkeeping and
chunk/token/duration counters (§3). -/
structure Document where
  id : String
  kb_id : String
  parser_id : String
  pipeline_id : String
  run : String
  progress : Rat
  progress_msg : String
  chunk_num : Int
  token_num : Int
  process_duration : Rat
deriving DecidableEq

/-- A knowledge-base record: tenant, aggregate chunk/token counters, and the
three advisory aggregate-task pointer fields; an empty string means the
pointer is unset (Python falsiness of `""`). -/
structure Knowledgebase where
  id : String
  tenant_id : String
  chunk_num : Int
  token_num : Int
  graphrag_task_id : String
  raptor_task_id : String
  mindmap_task_id : String
deriving DecidableEq

/-- One record of the external search index, keyed by tenant partition,
knowledge base, document and the `knowledge_graph_kwd` tag; `available_int`
is the availability flag toggled by `change_status`. -/
structure IndexEntry where
  tenant_id : String
  kb_id : String
  doc_id : String
  knowledge_graph_kwd : String
  available_int : Int
deriving DecidableEq

/-- A file-to-document linkage row (`File2Document`), resolving a document to
its storage bucket/object name. -/
structure File2Document where
  doc_id : String
  file_id : String
  bucket : String
  name : String
deriving DecidableEq

/-- A file record (`File` row); only the identity and source type matter to
the deletion paths. -/
structure FileRec where
  id : String
  source_type : String
deriving DecidableEq

/-- The whole record-store state visible to the orchestration core: tables of
knowledge bases, documents and tasks, the search index (entries plus the set
of existing tenant/kb partitions), file linkages and files, the blob store,
and the set of knowledge bases holding a cached field map. -/
structure DB where
  kbs : List Knowledgebase
  docs : List Document
  tasks : List Task
  index : List IndexEntry
  partitions : List (String × String)
  f2ds : List File2Document
  files : List FileRec
  blobs : List (String × String)
  field_maps : List String
deriving DecidableEq

/-- `KnowledgebaseService.get_by_id`: first knowledge-base row with the given
id, if any. -/
def get_kb_by_id (st : DB) (id : String) : Option Knowledgebase :=
  st.kbs.find? (fun k => k.id == id)

/-- `DocumentService.get_by_id`: first document row with the given id. -/
def get_doc_by_id (st : DB) (id : String) : Option Document :=
  st.docs.find? (fun d => d.id == id)

/-- `TaskService.get_by_id`: first task row with the given id. -/
def get_task_by_id (st : DB) (id : String) : Option Task :=
  st.tasks.find? (fun t => t.id == id)

/-- The search index `indexExist(partition, kb_id)` check (§6): whether the
tenant/knowledge-base partition exists. -/
def index_exist (st : DB) (tenant_id kb_id : String) : Bool :=
  st.partitions.contains (tenant_id, kb_id)

/-- The search index `delete({doc_id}, partition, kb_id)` operation (§6):
remove every entry of the given document inside the tenant/kb partition. -/
def index_delete_by_doc (st : DB) (tenant_id kb_id doc_id : String) : DB :=
  { st with index := st.index.filter (fun e =>
      !(e.tenant_id == tenant_id && e.kb_id == kb_id && e.doc_id == doc_id)) }

/-- The search index `delete({knowledge_graph_kwd: kwds}, partition, kb_id)`
operation (§6): remove every entry of the partition whose tag is listed. -/
def index_delete_by_kwds (st : DB) (tenant_id kb_id : String) (kwds : List String) : DB :=
  { st with index := st.index.filter (fun e =>
      !(e.tenant_id == tenant_id && e.kb_id == kb_id
        && kwds.contains e.knowledge_graph_kwd)) }

/-- The search index `update({doc_id}, {available_int}, partition, kb_id)`
operation (§6): set the availability flag on every entry of the document. -/
def index_update_available (st : DB) (tenant_id kb_id doc_id : String) (v : Int) : DB :=
  { st with index := st.index.map (fun e =>
      if e.tenant_id == tenant_id && e.kb_id == kb_id && e.doc_id == doc_id
      then { e with available_int := v } else e) }

/-- `TaskService.filter_delete([Task.doc_id == doc_id])`: delete every task
row referencing the document. -/
def task_filter_delete_by_doc (st : DB) (doc_id : String) : DB :=
  { st with tasks := st.tasks.filter (fun t => !(t.doc_id == doc_id)) }

/-- Modelled from the spec: `cancel_all_task_of`
(`api.db.services.task_service`, not under `src/`) deletes all outstanding
Task rows for the document (§4.1 "Cancellation deletes all outstanding Task
rows for the document"). -/
def cancel_all_task_of (st : DB) (doc_id : String) : DB :=
  task_filter_delete_by_doc st doc_id

/-- Modelled from the spec: `DocumentService.get_tenant_id`
(`api.db.services.document_service`, not under `src/`) resolves a document to
the tenant of its owning knowledge base, `None`-like when either lookup
fails. -/
def get_tenant_id (st : DB) (doc_id : String) : Option String := do
  let d ← get_doc_by_id st doc_id
  let kb ← get_kb_by_id st d.kb_id
  pure kb.tenant_id

/-- Modelled from the spec: `File2DocumentService.get_storage_address`
(`api.db.services.file2document_service`, not under `src/`) resolves the
document's storage bucket/object name via its file-linkage record; in the
source an absent linkage raises an exception, modelled here as `none`. -/
def get_storage_address (st : DB) (doc_id : String) : Option (String × String) :=
  (st.f2ds.find? (fun f => f.doc_id == doc_id)).map (fun f => (f.bucket, f.name))

/-- Modelled from the spec: `DocumentService.clear_chunk_num_when_rerun`
(`api.db.services.document_service`, not under `src/`) rolls back the
document's contribution to the knowledge-base-level chunk/token aggregates
(§4.1 "roll back its contribution to knowledge-base-level chunk/token
aggregates before resetting its own counters"). -/
def clear_chunk_num_when_rerun (st : DB) (doc_id : String) : DB :=
  match get_doc_by_id st doc_id with
  | none => st
  | some doc =>
    { st with kbs := st.kbs.map (fun k =>
        if k.id == doc.kb_id then
          { k with chunk_num := k.chunk_num - doc.chunk_num,
                   token_num := k.token_num - doc.token_num }
        else k) }

/-- Modelled from the spec: `DocumentService.remove_document`
(`api.db.services.document_service`, not under `src/`) deletes all index
entries scoped to the document id within the tenant's index partition for its
knowledge base (§4.3) and logically removes the document row (§3); it reports
success as a truthy value. -/
def remove_document (st : DB) (doc : Document) (tenant_id : String) : Bool × DB :=
  let st1 := index_delete_by_doc st tenant_id doc.kb_id doc.id
  (true, { st1 with docs := st1.docs.filter (fun d => !(d.id == doc.id)) })

/-- Modelled from the spec: `DocumentService.count_by_kb_id` with
`run_status=[DONE]` (`api.db.services.document_service`, not under `src/`)
counts the knowledge base's documents whose run-state is done. -/
def count_by_kb_id_done (st : DB) (kb_id : String) : Int :=
  ((st.docs.filter (fun d => d.kb_id == kb_id && d.run == TaskStatus_DONE)).length : Int)

/-- Modelled from the spec: `KnowledgebaseService.delete_field_map`
(`api.db.services.knowledgebase_service`, not under `src/`) clears the
knowledge base's cached field map (§4.3 "schema cache invalidation"). -/
def delete_field_map (st : DB) (kb_id : String) : DB :=
  { st with field_maps := st.field_maps.filter (fun k => !(k == kb_id)) }

/-- `FileService.filter_delete([File.source_type == KNOWLEDGEBASE, File.id ==
file_id])`: delete matching file rows and report how many were deleted. -/
def file_filter_delete_kb_source (st : DB) (file_id : String) : Nat × DB :=
  let hits := st.files.filter
      (fun f => f.source_type == FileSource_KNOWLEDGEBASE && f.id == file_id)
  (hits.length,
   { st with files := st.files.filter (fun f =>
       !(f.source_type == FileSource_KNOWLEDGEBASE && f.id == file_id)) })

/-- `File2DocumentService.delete_by_document_id`: delete every linkage row of
the document. -/
def f2d_delete_by_document_id (st : DB) (doc_id : String) : DB :=
  { st with f2ds := st.f2ds.filter (fun f => !(f.doc_id == doc_id)) }

/-- The blob store `delete(bucket, key)` operation (`STORAGE_IMPL.rm`, §6). -/
def storage_rm (st : DB) (bucket name : String) : DB :=
  { st with blobs := st.blobs.filter (fun b => !(b.1 == bucket && b.2 == name)) }

/-- Modelled from the spec: `queue_raptor_o_graphrag_tasks`
(`api.db.services.document_service`, not under `src/`) creates one Task
addressed at the knowledge-base-wide synthetic document id with fresh
progress, priority 0, carrying the list of real document ids as its unit of
work, and returns the new Task id (§4.2 step 4).  The fresh id is passed in
explicitly, standing for the generated uuid. -/
def queue_raptor_o_graphrag_tasks (st : DB) (new_task_id : String) : String × DB :=
  (new_task_id,
   { st with tasks := st.tasks ++ [{ id := new_task_id,
                                     doc_id := GRAPH_RAPTOR_FAKE_DOC_ID,
                                     progress := 0 }] })

/-! ### Aggregate dispatch (`kb_app.run_graphrag` / `run_raptor` / `run_mindmap`) -/

/-- The three aggregate pipeline kinds dispatched per knowledge base. -/
inductive AggKind
  | graphrag
  | raptor
  | mindmap
deriving DecidableEq

/-- The stored pointer field of a knowledge base for an aggregate kind
(`kb.graphrag_task_id` / `kb.raptor_task_id` / `kb.mindmap_task_id`). -/
def kb_task_pointer (kb : Knowledgebase) : AggKind → String
  | .graphrag => kb.graphrag_task_id
  | .raptor => kb.raptor_task_id
  | .mindmap => kb.mindmap_task_id

/-- Write the pointer field of a knowledge base for an aggregate kind
(the `{..._task_id: task_id}` update). -/
def set_task_pointer (kb : Knowledgebase) : AggKind → String → Knowledgebase
  | .graphrag, v => { kb with graphrag_task_id := v }
  | .raptor, v => { kb with raptor_task_id := v }
  | .mindmap, v => { kb with mindmap_task_id := v }

/-- `KnowledgebaseService.update_by_id` restricted to a pointer write; the
`ok` oracle models whether the persistence layer reports success. -/
def kb_update_pointer (st : DB) (kb_id : String) (kind : AggKind) (v : String) : DB :=
  { st with kbs := st.kbs.map (fun k => if k.id == kb_id then set_task_pointer k kind v else k) }

/-- `DocumentService.get_by_kb_id` with an unbounded page: all documents of
the knowledge base, in store order (the `create_time` ordering of the source
is not modelled; only emptiness and the id list matter to the callers). -/
def get_documents_by_kb_id (st : DB) (kb_id : String) : List Document :=
  st.docs.filter (fun d => d.kb_id == kb_id)

/-- Outcome of an aggregate dispatch request, mirroring the handler's
responses: missing kb id, unknown knowledge base, the `Conflict` rejection
(naming the in-progress task id and its progress, as in the message
`Task {task_id} in progress with status {task.progress}. ... already
running.`), the empty-knowledge-base rejection, or success carrying the new
aggregate task id. -/
inductive DispatchAnswer
  | lackKbId
  | invalidKb
  | conflict (task_id : String) (progress : Rat)
  | noDocuments (kb_id : String)
  | okTask (task_id : String)
deriving DecidableEq

/-- The shared body of `run_graphrag` (kb_app.py lines 589-633), `run_raptor`
(659-703) and `run_mindmap` (729-773), which differ only in the pointer field
they consult and write.  `pointer_write_ok` is the oracle for the final
best-effort `KnowledgebaseService.update_by_id`; `new_task_id` stands for the
uuid of the Task created by `queue_raptor_o_graphrag_tasks`. -/
def run_aggregate (kind : AggKind) (pointer_write_ok : Bool) (new_task_id : String)
    (st : DB) (kb_id : String) : DispatchAnswer × DB :=
  if kb_id == "" then (.lackKbId, st)
  else
    match get_kb_by_id st kb_id with
    | none => (.invalidKb, st)
    | some kb =>
      let task_id := kb_task_pointer kb kind
      let conflict : Option (String × Rat) :=
        if task_id ≠ "" then
          match get_task_by_id st task_id with
          | some task =>
            if task.progress ≠ -1 ∧ task.progress ≠ 1 then some (task_id, task.progress)
            else none
          | none => none
        else none
      match conflict with
      | some (tid, p) => (.conflict tid p, st)
      | none =>
        let documents := get_documents_by_kb_id st kb_id
        if documents.isEmpty then (.noDocuments kb_id, st)
        else
          let (tid, st1) := queue_raptor_o_graphrag_tasks st new_task_id
          let st2 := if pointer_write_ok then kb_update_pointer st1 kb.id kind tid else st1
          (.okTask tid, st2)

/-- `kb_app.run_graphrag` (lines 589-633). -/
def run_graphrag (pointer_write_ok : Bool) (new_task_id : String) (st : DB)
    (kb_id : String) : DispatchAnswer × DB :=
  run_aggregate .graphrag pointer_write_ok new_task_id st kb_id

/-- `kb_app.run_raptor` (lines 659-703). -/
def run_raptor (pointer_write_ok : Bool) (new_task_id : String) (st : DB)
    (kb_id : String) : DispatchAnswer × DB :=
  run_aggregate .raptor pointer_write_ok new_task_id st kb_id

/-- `kb_app.run_mindmap` (lines 729-773). -/
def run_mindmap (pointer_write_ok : Bool) (new_task_id : String) (st : DB)
    (kb_id : String) : DispatchAnswer × DB :=
  run_aggregate .mindmap pointer_write_ok new_task_id st kb_id

/-! ### Unbinding an aggregate pointer (`kb_app.delete_kb_task`) -/

/-- Modelled from the spec: the `GRAPH_RAG` member of `PipelineTaskType`
(`api.db`, not under `src/`); only distinctness of the members matters. -/
def PipelineTaskType_GRAPH_RAG : String := "graphrag"

/-- Modelled from the spec: the `RAPTOR` member of `PipelineTaskType`. -/
def PipelineTaskType_RAPTOR : String := "raptor"

/-- Modelled from the spec: the `MINDMAP` member of `PipelineTaskType`. -/
def PipelineTaskType_MINDMAP : String := "mindmap"

/-- Outcome of `delete_kb_task` (`DELETE /unbind_task`). -/
inductive UnbindAnswer
  | lackKbId
  | okTrue
  | invalidType
  | serverError
deriving DecidableEq

/-- `kb_app.delete_kb_task` (lines 799-831): resolve the knowledge base
(returning success `data=True` when it is absent), validate the task type,
for the GraphRAG kind delete the knowledge-graph artifacts from the index,
then clear the pointer and its finish timestamp.  `kb_write_ok` is the oracle
for the pointer-clearing `update_by_id`. -/
def delete_kb_task (kb_write_ok : Bool) (st : DB) (kb_id pipeline_task_type : String) :
    UnbindAnswer × DB :=
  if kb_id == "" then (.lackKbId, st)
  else
    match get_kb_by_id st kb_id with
    | none => (.okTrue, st)
    | some kb =>
      if pipeline_task_type ≠ PipelineTaskType_GRAPH_RAG
          ∧ pipeline_task_type ≠ PipelineTaskType_RAPTOR
          ∧ pipeline_task_type ≠ PipelineTaskType_MINDMAP then
        (.invalidType, st)
      else
        let (kind, st1) :=
          if pipeline_task_type == PipelineTaskType_GRAPH_RAG then
            (AggKind.graphrag,
             index_delete_by_kwds st kb.tenant_id kb_id
               ["graph", "subgraph", "entity", "relation"])
          else if pipeline_task_type == PipelineTaskType_RAPTOR then (AggKind.raptor, st)
          else (AggKind.mindmap, st)
        if kb_write_ok then (.okTrue, kb_update_pointer st1 kb_id kind "")
        else (.serverError, st1)

/-! ### Pipeline-log listing validation (`kb_app.list_pipeline_logs` /
`list_pipeline_dataset_logs`) -/

/-- Python string comparison `a > b`: strict lexicographic comparison of the
code-point sequences. -/
def py_str_gt (a b : String) : Bool := decide (b.data < a.data)

/-- Outcome of the validation prefix of the two pipeline-log listing
handlers; constructors carry the offending values, `passed` means the
request proceeds to the log query. -/
inductive PLogsAnswer
  | lackKbId
  | dateAbnormal
  | invalidStatus (bad : List String)
  | invalidTypes (bad : List String)
  | passed
deriving DecidableEq

/-- The user-visible error message of each validation outcome. -/
def plogs_message : PLogsAnswer → String
  | .lackKbId => "Lack of \"KB ID\""
  | .dateAbnormal => "Create data filter is abnormal."
  | .invalidStatus bad =>
      "Invalid filter operation_status status conditions: " ++ String.intercalate ", " bad
  | .invalidTypes bad =>
      "Invalid filter conditions: " ++ String.intercalate ", " bad
  | .passed => ""

/-- `kb_app.list_pipeline_logs` (lines 481-521), validation prefix: the
request is rejected when `kb_id` is missing, when `create_date_to >
create_date_from` under Python string comparison (line 500), or when an
`operation_status` or `types` filter value is outside the valid sets
(`VALID_TASK_STATUS` / `VALID_FILE_TYPES` from `api.db`, not under `src/`,
passed in here as parameters). -/
def list_pipeline_logs (valid_status valid_types : List String)
    (kb_id create_date_from create_date_to : String)
    (operation_status types : List String) : PLogsAnswer :=
  if kb_id == "" then .lackKbId
  else if py_str_gt create_date_to create_date_from then .dateAbnormal
  else
    let invalid_status := operation_status.filter (fun s => !(valid_status.contains s))
    if !operation_status.isEmpty ∧ !invalid_status.isEmpty then .invalidStatus invalid_status
    else
      let invalid_types := types.filter (fun t => !(valid_types.contains t))
      if !types.isEmpty ∧ !invalid_types.isEmpty then .invalidTypes invalid_types
      else .passed

/-- `kb_app.list_pipeline_dataset_logs` (lines 524-555), validation prefix:
as `list_pipeline_logs` but with no `types` filter. -/
def list_pipeline_dataset_logs (valid_status : List String)
    (kb_id create_date_from create_date_to : String)
    (operation_status : List String) : PLogsAnswer :=
  if kb_id == "" then .lackKbId
  else if py_str_gt create_date_to create_date_from then .dateAbnormal
  else
    let invalid_status := operation_status.filter (fun s => !(valid_status.contains s))
    if !operation_status.isEmpty ∧ !invalid_status.isEmpty then .invalidStatus invalid_status
    else .passed

/-! ### Knowledge-graph view (`kb_app.knowledge_graph`, lines 389-428) -/

/-- A node of the stored knowledge-graph JSON payload; `pagerank` is absent
when the JSON object has no such key (`x.get("pagerank", 0)`). -/
structure GNode where
  id : String
  pagerank : Option Rat
deriving DecidableEq

/-- An edge of the stored knowledge-graph JSON payload; `weight` is absent
when the JSON object has no such key (`x.get("weight", 0)`). -/
structure GEdge where
  source : String
  target : String
  weight : Option Rat
deriving DecidableEq

/-- A parsed knowledge-graph JSON content object, keeping only the keys the
handler reads: the optional `nodes` and `edges` lists (`"nodes" in
obj["graph"]` / `"edges" in obj["graph"]`).  The empty dict is
`⟨none, none⟩`. -/
structure KGraph where
  nodes : Option (List GNode)
  edges : Option (List GEdge)
deriving DecidableEq

/-- A search hit for the knowledge-graph query: the `knowledge_graph_kwd`
category field read from the hit and the result of `json.loads` on its
`content_with_weight` payload (`none` models a parse failure, which the
handler swallows with `continue`). -/
structure KGHit where
  knowledge_graph_kwd : String
  content : Option KGraph
deriving DecidableEq

/-- The response object `obj = {"graph": {}, "mind_map": {}}`; an unexpected
category tag populates an extra key (the source stores `obj[ty] =
content_json` without validating `ty`). -/
structure KGView where
  graph : KGraph
  mind_map : KGraph
  extra : List (String × KGraph)
deriving DecidableEq

/-- The empty response object returned for a missing partition or an empty
hit list. -/
def empty_kg_view : KGView :=
  { graph := { nodes := none, edges := none },
    mind_map := { nodes := none, edges := none },
    extra := [] }

/-- The assignment `obj[ty] = content_json`. -/
def kg_view_set (v : KGView) (ty : String) (c : KGraph) : KGView :=
  if ty == "graph" then { v with graph := c }
  else if ty == "mind_map" then { v with mind_map := c }
  else { v with extra := v.extra ++ [(ty, c)] }

/-- The descending-pagerank comparison used by
`sorted(key=lambda x: x.get("pagerank", 0), reverse=True)`. -/
def node_ge (a b : GNode) : Bool := decide (b.pagerank.getD 0 ≤ a.pagerank.getD 0)

/-- The descending-weight comparison used by
`sorted(key=lambda x: x.get("weight", 0), reverse=True)`. -/
def edge_ge (a b : GEdge) : Bool := decide (b.weight.getD 0 ≤ a.weight.getD 0)

/-- `kb_app.knowledge_graph` (lines 389-428) after authorization: return the
empty object when the index partition does not exist or the query has no
hits; otherwise assign the parsed payload of the single highest-ranked hit
(`sres.ids[:1]`) under its category key, then, if the graph object holds a
node list, keep the 256 nodes of highest pagerank sorted descending, and if
it also holds an edge list, drop self-loops and edges leaving the truncated
node set and keep the 128 heaviest remaining edges sorted descending by
weight. -/
def knowledge_graph (index_exists : Bool) (hits : List KGHit) : KGView :=
  if !index_exists then empty_kg_view
  else if hits.isEmpty then empty_kg_view
  else
    let obj := (hits.take 1).foldl (fun (o : KGView) h =>
      match h.content with
      | none => o
      | some c => kg_view_set o h.knowledge_graph_kwd c) empty_kg_view
    match obj.graph.nodes with
    | none => obj
    | some ns =>
      let ns2 := (ns.mergeSort node_ge).take 256
      match obj.graph.edges with
      | none => { obj with graph := { obj.graph with nodes := some ns2 } }
      | some es =>
        let node_id_set := ns2.map (fun o => o.id)
        let filtered_edges := es.filter (fun o =>
          o.source != o.target && node_id_set.contains o.source
            && node_id_set.contains o.target)
        { obj with graph :=
            { nodes := some ns2,
              edges := some ((filtered_edges.mergeSort edge_ge).take 128) } }

/-! ### Document status toggle (`document_app.change_status`, lines 425-462) -/

/-- A value written into the per-id entry of the `change_status` result map:
either an error report or the applied status. -/
inductive CSEntry
  | err (msg : String)
  | ok (status : String)
deriving DecidableEq

/-- Oracles for the fallible external calls made per document id by
`change_status`: team accessibility, the document-record update and the
search-index `available_int` update. -/
structure CSOracles where
  accessible : String → Bool
  doc_update_ok : String → Bool
  index_update_ok : String → Bool

/-- The sequence of writes `change_status` performs into `result[doc_id]` for
one document id (document_app.py lines 437-460), in program order: each error
path writes an error entry, and a successful document-record update always
ends by writing the `{"status": status}` entry — even right after the
docStore-update error entry, which it overwrites. -/
def change_status_writes (st : DB) (oracles : CSOracles) (doc_id status : String) :
    List CSEntry :=
  if !oracles.accessible doc_id then [.err "No authorization."]
  else
    match get_doc_by_id st doc_id with
    | none => [.err "No authorization."]
    | some doc =>
      match get_kb_by_id st doc.kb_id with
      | none => [.err "Can't find this knowledgebase!"]
      | some _ =>
        if !oracles.doc_update_ok doc_id then [.err "Database error (Document update)!"]
        else
          (if !oracles.index_update_ok doc_id
           then [CSEntry.err "Database error (docStore update)!"] else [])
            ++ [.ok status]

/-- The final per-id entry of the result map: the last write wins (a Python
dict assignment overwrites the previous value under the same key). -/
def change_status_entry (st : DB) (oracles : CSOracles) (doc_id status : String) :
    Option CSEntry :=
  (change_status_writes st oracles doc_id status).getLast?

/-- `document_app.change_status` over the whole id list: the returned result
map, one final entry per document id. -/
def change_status (st : DB) (oracles : CSOracles) (doc_ids : List String)
    (status : String) : List (String × Option CSEntry) :=
  doc_ids.map (fun id => (id, change_status_entry st oracles id status))

/-! ### Bulk document deletion (`document_app.rm`, lines 465-521) -/

/-- The per-knowledge-base map of remaining done-document counts
(`kb_table_num_map`), as an association list. -/
def ktm_get (m : List (String × Int)) (k : String) : Option Int :=
  (m.find? (fun p => p.1 == k)).map (fun p => p.2)

/-- Store a value in the `kb_table_num_map` association list, updating an
existing key in place. -/
def ktm_set (m : List (String × Int)) (k : String) (v : Int) : List (String × Int) :=
  if (m.find? (fun p => p.1 == k)).isSome then
    m.map (fun p => if p.1 == k then (k, v) else p)
  else m ++ [(k, v)]

/-- Oracles for `rm`: per-id deletion authorization
(`DocumentService.accessible4deletion`) and whether the blob-store delete
raises an exception for a given bucket/object. -/
structure RmOracles where
  accessible4deletion : String → Bool
  storage_rm_raises : String → String → Bool

/-- Outcome of processing one document id inside the `rm` loop: normal
completion, an early `return get_data_error_result(...)` that aborts the
whole request (carrying the state at that point), or a raised exception that
the `except` clause catches (the error text is accumulated and the loop
continues with the partially applied state). -/
inductive RmStep
  | ok (st : DB) (ktm : List (String × Int))
  | abort (msg : String) (st : DB)
  | exc (emsg : String) (st : DB) (ktm : List (String × Int))

/-- The body of the `rm` loop for one document id (document_app.py lines
483-516): look up the document and tenant (returning a data error when
absent), resolve the storage address (raising when the linkage is missing),
delete the document's task rows, remove the document (index entries and row),
delete the knowledge-base file row and linkage, delete the blob only when the
file deletion actually removed a row, and finally invalidate the knowledge
base's field-map cache when the last done table document is gone. -/
def rm_one (oracles : RmOracles) (st : DB) (ktm : List (String × Int))
    (doc_id : String) : RmStep :=
  match get_doc_by_id st doc_id with
  | none => .abort "Document not found!" st
  | some doc =>
    match get_tenant_id st doc_id with
    | none => .abort "Tenant not found!" st
    | some tenant_id =>
      match get_storage_address st doc_id with
      | none => .exc "Can't find storage address of this document!" st ktm
      | some (b, n) =>
        let st1 := task_filter_delete_by_doc st doc_id
        match remove_document st1 doc tenant_id with
        | (false, st2) => .abort "Database error (Document removal)!" st2
        | (true, st2) =>
          let f2d := st2.f2ds.filter (fun f => f.doc_id == doc_id)
          let (deleted_file_count, st3) :=
            match f2d with
            | [] => (0, st2)
            | f :: _ => file_filter_delete_kb_source st2 f.file_id
          let st4 := f2d_delete_by_document_id st3 doc_id
          let blob : Option DB :=
            if deleted_file_count > 0 then
              if oracles.storage_rm_raises b n then none else some (storage_rm st4 b n)
            else some st4
          match blob with
          | none => .exc ("Fail to remove object " ++ n) st4 ktm
          | some st5 =>
            let (st6, ktm6) :=
              if doc.parser_id == ParserType_TABLE then
                let kb_id := doc.kb_id
                let ktm1 :=
                  match ktm_get ktm kb_id with
                  | none => ktm_set ktm kb_id (count_by_kb_id_done st5 kb_id)
                  | some _ => ktm
                let newCount := (ktm_get ktm1 kb_id).getD 0 - 1
                let ktm2 := ktm_set ktm1 kb_id newCount
                if newCount ≤ 0 then (delete_field_map st5 kb_id, ktm2)
                else (st5, ktm2)
              else (st5, ktm)
            .ok st6 ktm6

/-- Outcome of the whole `rm` request: authorization failure, an early data
error, the accumulated error report (`data=False`, `SERVER_ERROR` code with
the concatenated per-id error messages), or plain success. -/
inductive RmAnswer
  | authError
  | dataError (msg : String)
  | errorReport (msg : String)
  | okTrue
deriving DecidableEq

/-- Final state and answer of a `rm` request. -/
structure RmResult where
  answer : RmAnswer
  st : DB

/-- The `rm` loop over the document ids (lines 483-521): a data error aborts
immediately without rollback, an exception accumulates its message into
`errors` and continues, and at the end a non-empty `errors` string is
reported with `data=False`. -/
def rm_loop (oracles : RmOracles) (st : DB) (ktm : List (String × Int))
    (errors : String) : List String → RmResult
  | [] => if errors ≠ "" then ⟨.errorReport errors, st⟩ else ⟨.okTrue, st⟩
  | id :: rest =>
    match rm_one oracles st ktm id with
    | .ok st1 ktm1 => rm_loop oracles st1 ktm1 errors rest
    | .abort msg st1 => ⟨.dataError msg, st1⟩
    | .exc emsg st1 ktm1 => rm_loop oracles st1 ktm1 (errors ++ emsg) rest

/-- `document_app.rm` (lines 465-521): reject the whole request when any id
fails the deletion-authorization check, then process the ids in order. -/
def rm (oracles : RmOracles) (st : DB) (doc_ids : List String) : RmResult :=
  if doc_ids.any (fun id => !(oracles.accessible4deletion id)) then ⟨.authError, st⟩
  else rm_loop oracles st [] "" doc_ids

/-! ### Document run / cancel / rerun (`document_app.run`, lines 524-584) -/

/-- One externally visible side effect of the `run` handler, in program
order.  The two enqueue effects stand for the creation and queueing of the
new work unit (`queue_dataflow` / `queue_tasks`, code not under `src/`;
§4.2 per-document dispatch). -/
inductive Effect
  | cancelTasks (doc_id : String)
  | clearChunkNumWhenRerun (doc_id : String)
  | docUpdate (doc_id : String)
  | taskFilterDelete (doc_id : String)
  | indexDeleteByDoc (tenant_id : String) (kb_id : String) (doc_id : String)
  | fieldMapDelete (kb_id : String)
  | enqueuePipeline (tenant_id : String) (pipeline_id : String) (doc_id : String)
  | enqueueParse (doc_id : String) (bucket : String) (name : String)
deriving DecidableEq

/-- Application of the `info` update built at lines 535-539 to a document
record: `run` and `progress` always, plus the `progress_msg`/`chunk_num`/
`token_num` reset when rerunning with `delete=true`. -/
def apply_run_info (req_run : String) (reset : Bool) (d : Document) : Document :=
  let d1 := { d with run := req_run, progress := (0 : Rat) }
  if reset then { d1 with progress_msg := "", chunk_num := 0, token_num := 0 } else d1

/-- `DocumentService.update_by_id` applied to one document row. -/
def doc_update_by_id (st : DB) (doc_id : String) (f : Document → Document) : DB :=
  { st with docs := st.docs.map (fun d => if d.id == doc_id then f d else d) }

/-- Outcome of one iteration of the `run` loop: normal completion, an early
`return get_data_error_result(...)`, or a raised exception (the handler's
`try` encloses the whole loop, so an exception fails the whole request). -/
inductive RunStep
  | ok (st : DB) (ktm : List (String × Int)) (tr : List Effect)
  | abort (msg : String)
  | exc (emsg : String) (st : DB) (tr : List Effect)

/-- The body of the `run` loop for one document id (document_app.py lines
534-580): build `info`, resolve tenant and document, handle `CANCEL`
(rejecting when the document is not running), roll back the knowledge-base
aggregates on a destructive rerun of a done document, apply `info`, delete
task rows and index entries when `delete` is set, and on `RUNNING` refresh
the table-parser field-map bookkeeping and enqueue the new work unit on the
pipeline or direct-parse route. -/
def run_one (req_run : String) (req_delete : Bool) (st : DB)
    (ktm : List (String × Int)) (id : String) : RunStep :=
  match get_tenant_id st id with
  | none => .abort "Tenant not found!"
  | some tenant_id =>
    match get_doc_by_id st id with
    | none => .abort "Document not found!"
    | some doc =>
      let after_cancel : DB → List Effect → RunStep := fun st1 tr =>
        let st2 :=
          if req_delete ∧ req_run == TaskStatus_RUNNING ∧ doc.run == TaskStatus_DONE then
            clear_chunk_num_when_rerun st1 id
          else st1
        let tr2 :=
          if req_delete ∧ req_run == TaskStatus_RUNNING ∧ doc.run == TaskStatus_DONE then
            tr ++ [Effect.clearChunkNumWhenRerun id]
          else tr
        let st3 := doc_update_by_id st2 id
          (apply_run_info req_run (req_run == TaskStatus_RUNNING && req_delete))
        let tr3 := tr2 ++ [Effect.docUpdate id]
        let (st4, tr4) :=
          if req_delete then
            let stA := task_filter_delete_by_doc st3 id
            let trA := tr3 ++ [Effect.taskFilterDelete id]
            if index_exist stA tenant_id doc.kb_id then
              (index_delete_by_doc stA tenant_id doc.kb_id id,
               trA ++ [Effect.indexDeleteByDoc tenant_id doc.kb_id id])
            else (stA, trA)
          else (st3, tr3)
        if req_run == TaskStatus_RUNNING then
          let table : Option (DB × List (String × Int) × List Effect) :=
            if doc.parser_id == ParserType_TABLE then
              let kb_id := doc.kb_id
              if kb_id == "" then none
              else
                match ktm_get ktm kb_id with
                | none =>
                  let count := count_by_kb_id_done st4 kb_id
                  let ktmA := ktm_set ktm kb_id count
                  if count ≤ 0 then
                    some (delete_field_map st4 kb_id, ktmA, tr4 ++ [Effect.fieldMapDelete kb_id])
                  else some (st4, ktmA, tr4)
                | some _ => some (st4, ktm, tr4)
            else some (st4, ktm, tr4)
          match table with
          | none => .ok st4 ktm tr4
          | some (st5, ktm5, tr5) =>
            if doc.pipeline_id ≠ "" then
              .ok st5 ktm5 (tr5 ++ [Effect.enqueuePipeline tenant_id doc.pipeline_id id])
            else
              match get_storage_address st5 id with
              | none => .exc "Can't find storage address of this document!" st5 tr5
              | some (b, n) => .ok st5 ktm5 (tr5 ++ [Effect.enqueueParse id b n])
        else .ok st4 ktm tr4
      if req_run == TaskStatus_CANCEL then
        if doc.run == TaskStatus_RUNNING then
          after_cancel (cancel_all_task_of st id) [Effect.cancelTasks id]
        else .abort "Cannot cancel a task that is not in RUNNING status"
      else after_cancel st []

/-- Outcome of the whole `run` request. -/
inductive RunAnswer
  | authError
  | dataError (msg : String)
  | serverError (msg : String)
  | okTrue
deriving DecidableEq

/-- Final answer, state and effect trace of a `run` request. -/
structure RunResult where
  answer : RunAnswer
  st : DB
  trace : List Effect

/-- The `run` loop over the document ids: a data error returns immediately;
an exception escapes the surrounding `try` and fails the whole request with a
server error, keeping already-applied mutations. -/
def run_loop (req_run : String) (req_delete : Bool) (st : DB)
    (ktm : List (String × Int)) (tr : List Effect) : List String → RunResult
  | [] => ⟨.okTrue, st, tr⟩
  | id :: rest =>
    match run_one req_run req_delete st ktm id with
    | .ok st1 ktm1 tr1 => run_loop req_run req_delete st1 ktm1 (tr ++ tr1) rest
    | .abort msg => ⟨.dataError msg, st, tr⟩
    | .exc emsg st1 tr1 => ⟨.serverError emsg, st1, tr ++ tr1⟩

/-- `document_app.run` (lines 524-584): reject the request when any id fails
the accessibility check, then process the ids in order. -/
def run (accessible : String → Bool) (req_run : String) (req_delete : Bool)
    (st : DB) (doc_ids : List String) : RunResult :=
  if doc_ids.any (fun id => !(accessible id)) then ⟨.authError, st, []⟩
  else run_loop req_run req_delete st [] [] doc_ids

/-! ## Theorems settling the claims -/

/-- C10: for every `unbind_task` request whose `kb_id` does not resolve to an
existing knowledge base, the operation returns success (`data=True`) without
validating `pipeline_task_type`, without clearing any pointer field and
without deleting any index artifacts — it does not return a NotFound
error.  The unchanged state covers both the pointer fields and the index. -/
theorem C10_unbind_missing_kb_succeeds (kb_write_ok : Bool) (st : DB)
    (kb_id pipeline_task_type : String) (hne : kb_id ≠ "")
    (habs : get_kb_by_id st kb_id = none) :
    delete_kb_task kb_write_ok st kb_id pipeline_task_type = (.okTrue, st) := by
  unfold delete_kb_task
  simp only [beq_iff_eq, hne, if_false, habs]

/-- C10 witness: a state with no knowledge bases and an invalid task type. -/
theorem C10_unbind_missing_kb_succeeds_witness :
    delete_kb_task true { kbs := [], docs := [], tasks := [], index := [],
                          partitions := [], f2ds := [], files := [], blobs := [],
                          field_maps := [] } "k1" "bogus-type"
      = (.okTrue, { kbs := [], docs := [], tasks := [], index := [],
                    partitions := [], f2ds := [], files := [], blobs := [],
                    field_maps := [] }) :=
  C10_unbind_missing_kb_succeeds true _ "k1" "bogus-type" (by decide) (by rfl)

/-- C9: for both pipeline-log listing endpoints, when `kb_id` is present and
both date bounds are supplied, the request is rejected with the error
`Create data filter is abnormal.` exactly when `create_date_to` is strictly
greater than `create_date_from` under string comparison; a range whose end is
at or before its start passes this check. -/
theorem C9_pipeline_logs_date_filter (valid_status valid_types : List String)
    (kb_id create_date_from create_date_to : String)
    (operation_status types : List String)
    (hkb : kb_id ≠ "") (hfrom : create_date_from ≠ "") (hto : create_date_to ≠ "") :
    (list_pipeline_logs valid_status valid_types kb_id create_date_from create_date_to
        operation_status types = .dateAbnormal
      ↔ create_date_from.data < create_date_to.data)
    ∧ (list_pipeline_dataset_logs valid_status kb_id create_date_from create_date_to
        operation_status = .dateAbnormal
      ↔ create_date_from.data < create_date_to.data)
    ∧ plogs_message .dateAbnormal = "Create data filter is abnormal." := by
  refine ⟨?_, ?_, rfl⟩ <;>
  · simp only [list_pipeline_logs, list_pipeline_dataset_logs, py_str_gt,
      beq_iff_eq, hkb, if_false]
    by_cases h : create_date_from.data < create_date_to.data
    · simp [h]
    · simp only [h, decide_False, Bool.false_eq_true, if_false, iff_false]
      split
      · simp
      · first
        | (split <;> simp)
        | simp

/-- C9 witness: with both dates supplied and the end strictly greater than
the start, both endpoints reject with the date-filter error. -/
theorem C9_pipeline_logs_date_filter_witness :
    (list_pipeline_logs ["0", "1"] ["pdf"] "kb1" "2024-01-01" "2024-01-02" [] []
        = .dateAbnormal
      ↔ ("2024-01-01" : String).data < ("2024-01-02" : String).data)
    ∧ (list_pipeline_dataset_logs ["0", "1"] "kb1" "2024-01-01" "2024-01-02" []
        = .dateAbnormal
      ↔ ("2024-01-01" : String).data < ("2024-01-02" : String).data)
    ∧ plogs_message .dateAbnormal = "Create data filter is abnormal." :=
  C9_pipeline_logs_date_filter ["0", "1"] ["pdf"] "kb1" "2024-01-01" "2024-01-02" [] []
    (by decide) (by decide) (by decide)

/-- C8: in `change_status`, for every document id that passes authorization,
the document and knowledge-base lookups and whose document-record update
succeeds, the final per-id result entry is the `{"status": status}` success
entry even when the search-index `available_int` update fails; the error
entry written for a failed index update is immediately overwritten by the
success entry. -/
theorem C8_change_status_index_error_overwritten (st : DB) (oracles : CSOracles)
    (doc_id status : String) (doc : Document) (kb : Knowledgebase)
    (hacc : oracles.accessible doc_id = true)
    (hdoc : get_doc_by_id st doc_id = some doc)
    (hkb : get_kb_by_id st doc.kb_id = some kb)
    (hupd : oracles.doc_update_ok doc_id = true) :
    change_status_entry st oracles doc_id status = some (.ok status)
    ∧ (oracles.index_update_ok doc_id = false →
        change_status_writes st oracles doc_id status
          = [.err "Database error (docStore update)!", .ok status]) := by
  by_cases h : oracles.index_update_ok doc_id <;>
    simp [change_status_entry, change_status_writes, hacc, hdoc, hkb, hupd, h]

/-- C8 witness: one document whose index update fails; the final entry is
still the success entry and the write sequence shows the overwrite. -/
theorem C8_change_status_index_error_overwritten_witness :
    change_status_entry
        { kbs := [{ id := "k1", tenant_id := "t1", chunk_num := 0, token_num := 0,
                    graphrag_task_id := "", raptor_task_id := "", mindmap_task_id := "" }],
          docs := [{ id := "d1", kb_id := "k1", parser_id := "naive", pipeline_id := "",
                     run := "0", progress := 0, progress_msg := "", chunk_num := 0,
                     token_num := 0, process_duration := 0 }],
          tasks := [], index := [], partitions := [], f2ds := [], files := [],
          blobs := [], field_maps := [] }
        { accessible := fun _ => true, doc_update_ok := fun _ => true,
          index_update_ok := fun _ => false } "d1" "0"
      = some (.ok "0")
    ∧ ((fun _ => false : String → Bool) "d1" = false →
        change_status_writes
          { kbs := [{ id := "k1", tenant_id := "t1", chunk_num := 0, token_num := 0,
                      graphrag_task_id := "", raptor_task_id := "", mindmap_task_id := "" }],
            docs := [{ id := "d1", kb_id := "k1", parser_id := "naive", pipeline_id := "",
                       run := "0", progress := 0, progress_msg := "", chunk_num := 0,
                       token_num := 0, process_duration := 0 }],
            tasks := [], index := [], partitions := [], f2ds := [], files := [],
            blobs := [], field_maps := [] }
          { accessible := fun _ => true, doc_update_ok := fun _ => true,
            index_update_ok := fun _ => false } "d1" "0"
          = [.err "Database error (docStore update)!", .ok "0"]) :=
  C8_change_status_index_error_overwritten _ _ "d1" "0" _ _
    (by rfl) (by rfl) (by rfl) (by rfl)

/-- Helper: with no active conflict (the pointer is unset, dangling, or its
task is terminal) and a non-empty document list, an aggregate dispatch
creates the new aggregate task, best-effort writes the pointer, and returns
the new task id. -/
theorem run_aggregate_no_conflict_eq (kind : AggKind) (pwOk : Bool) (ntid : String)
    (st : DB) (kb_id : String) (kb : Knowledgebase)
    (hne : kb_id ≠ "") (hkb : get_kb_by_id st kb_id = some kb)
    (hnoconf : ∀ t, get_task_by_id st (kb_task_pointer kb kind) = some t →
        t.progress = -1 ∨ t.progress = 1)
    (hdocs : get_documents_by_kb_id st kb_id ≠ []) :
    run_aggregate kind pwOk ntid st kb_id
      = (.okTask ntid,
         if pwOk then
           kb_update_pointer
             { st with tasks := st.tasks ++ [⟨ntid, GRAPH_RAPTOR_FAKE_DOC_ID, 0⟩] }
             kb.id kind ntid
         else { st with tasks := st.tasks ++ [⟨ntid, GRAPH_RAPTOR_FAKE_DOC_ID, 0⟩] }) := by
  by_cases hp : kb_task_pointer kb kind = ""
  · simp [run_aggregate, queue_raptor_o_graphrag_tasks, hne, hkb, hp, hdocs,
      List.isEmpty_iff]
  · cases ht : get_task_by_id st (kb_task_pointer kb kind) with
    | none =>
      simp [run_aggregate, queue_raptor_o_graphrag_tasks, hne, hkb, hp, ht, hdocs,
        List.isEmpty_iff]
    | some t =>
      rcases hnoconf t ht with h | h <;>
        simp [run_aggregate, queue_raptor_o_graphrag_tasks, hne, hkb, hp, ht, h, hdocs,
          List.isEmpty_iff]

/-- C1 (amended): for every knowledge base and aggregate kind, the dispatch
is rejected with a Conflict naming the in-progress task id exactly when the
stored pointer for that kind is set, the referenced Task exists, and its
progress is outside the terminal set; a Conflict never names any other id;
and once the referenced Task is terminal (or the pointer is unset or
dangling), a new dispatch succeeds and returns the new aggregate Task id —
provided the knowledge base still has at least one document (the source
rejects a document-less knowledge base with a NotFound-style error even when
the pointer is terminal, which is the
correction to the claim as stated). -/
theorem C1_aggregate_dispatch_single_flight (kind : AggKind) (pwOk : Bool)
    (new_task_id : String) (st : DB) (kb_id : String) (kb : Knowledgebase)
    (hne : kb_id ≠ "") (hkb : get_kb_by_id st kb_id = some kb) :
    ((∃ p, (run_aggregate kind pwOk new_task_id st kb_id).1
        = .conflict (kb_task_pointer kb kind) p)
      ↔ kb_task_pointer kb kind ≠ ""
        ∧ ∃ t, get_task_by_id st (kb_task_pointer kb kind) = some t
            ∧ t.progress ≠ -1 ∧ t.progress ≠ 1)
    ∧ (∀ tid p, (run_aggregate kind pwOk new_task_id st kb_id).1 = .conflict tid p →
        tid = kb_task_pointer kb kind ∧ get_task_by_id st tid ≠ none)
    ∧ ((∀ t, get_task_by_id st (kb_task_pointer kb kind) = some t →
          t.progress = -1 ∨ t.progress = 1) →
        get_documents_by_kb_id st kb_id ≠ [] →
        (run_aggregate kind pwOk new_task_id st kb_id).1 = .okTask new_task_id) := by
  refine ⟨?_, ?_, ?_⟩
  · by_cases hp : kb_task_pointer kb kind = ""
    · cases he : (get_documents_by_kb_id st kb_id).isEmpty <;>
        simp [run_aggregate, queue_raptor_o_graphrag_tasks, hne, hkb, hp, he]
    · cases ht : get_task_by_id st (kb_task_pointer kb kind) with
      | none =>
        cases he : (get_documents_by_kb_id st kb_id).isEmpty <;>
          simp [run_aggregate, queue_raptor_o_graphrag_tasks, hne, hkb, hp, ht, he]
      | some t =>
        by_cases hterm : t.progress ≠ -1 ∧ t.progress ≠ 1
        · simp [run_aggregate, hne, hkb, hp, ht, hterm.1, hterm.2, hp]
        · have : t.progress = -1 ∨ t.progress = 1 := by
            rcases not_and_or.mp hterm with h | h
            · exact Or.inl (not_not.mp h)
            · exact Or.inr (not_not.mp h)
          rcases this with h | h <;>
            cases he : (get_documents_by_kb_id st kb_id).isEmpty <;>
              simp [run_aggregate, queue_raptor_o_graphrag_tasks, hne, hkb, hp, ht, h, he]
  · intro tid p hconf
    by_cases hp : kb_task_pointer kb kind = ""
    · cases he : (get_documents_by_kb_id st kb_id).isEmpty <;>
        simp [run_aggregate, queue_raptor_o_graphrag_tasks, hne, hkb, hp, he] at hconf
    · cases ht : get_task_by_id st (kb_task_pointer kb kind) with
      | none =>
        cases he : (get_documents_by_kb_id st kb_id).isEmpty <;>
          simp [run_aggregate, queue_raptor_o_graphrag_tasks, hne, hkb, hp, ht, he] at hconf
      | some t =>
        by_cases hterm : t.progress ≠ -1 ∧ t.progress ≠ 1
        · simp [run_aggregate, hne, hkb, hp, ht, hterm.1, hterm.2] at hconf
          refine ⟨hconf.1.symm, ?_⟩
          rw [← hconf.1]
          simp [ht]
        · have : t.progress = -1 ∨ t.progress = 1 := by
            rcases not_and_or.mp hterm with h | h
            · exact Or.inl (not_not.mp h)
            · exact Or.inr (not_not.mp h)
          rcases this with h | h <;>
            cases he : (get_documents_by_kb_id st kb_id).isEmpty <;>
              simp [run_aggregate, queue_raptor_o_graphrag_tasks, hne, hkb, hp, ht, h, he]
                at hconf
  · intro hnoconf hdocs
    rw [run_aggregate_no_conflict_eq kind pwOk new_task_id st kb_id kb hne hkb hnoconf hdocs]

/-- C1 counterexample state: knowledge base `k1` whose graphrag pointer
references task `tg` with terminal progress `1`, but holding no documents. -/
def C1_db : DB :=
  { kbs := [{ id := "k1", tenant_id := "t1", chunk_num := 0, token_num := 0,
              graphrag_task_id := "tg", raptor_task_id := "", mindmap_task_id := "" }],
    docs := [],
    tasks := [{ id := "tg", doc_id := GRAPH_RAPTOR_FAKE_DOC_ID, progress := 1 }],
    index := [], partitions := [], f2ds := [], files := [], blobs := [],
    field_maps := [] }

/-- C1 counterexample: the pointer's task has terminal progress 1, yet the
dispatch does not succeed with a new task id — the knowledge base has no
documents, so the source returns the `No documents` error instead. -/
theorem C1_counterexample :
    get_task_by_id C1_db "tg"
      = some { id := "tg", doc_id := GRAPH_RAPTOR_FAKE_DOC_ID, progress := 1 }
    ∧ (run_graphrag true "tnew" C1_db "k1").1 = .noDocuments "k1"
    ∧ (run_graphrag true "tnew" C1_db "k1").1 ≠ .okTask "tnew" := by
  refine ⟨by rfl, by rfl, by decide⟩

/-- C1 witness: a knowledge base with one document and a terminal graphrag
task pointer; the conflict characterisation and the successful re-dispatch
hold. -/
theorem C1_witness :
    (let st : DB :=
      { kbs := [{ id := "k1", tenant_id := "t1", chunk_num := 0, token_num := 0,
                  graphrag_task_id := "tg", raptor_task_id := "", mindmap_task_id := "" }],
        docs := [{ id := "d1", kb_id := "k1", parser_id := "naive", pipeline_id := "",
                   run := "3", progress := 1, progress_msg := "", chunk_num := 1,
                   token_num := 1, process_duration := 0 }],
        tasks := [{ id := "tg", doc_id := GRAPH_RAPTOR_FAKE_DOC_ID, progress := 1 }],
        index := [], partitions := [], f2ds := [], files := [], blobs := [],
        field_maps := [] }
     let kb : Knowledgebase :=
      { id := "k1", tenant_id := "t1", chunk_num := 0, token_num := 0,
        graphrag_task_id := "tg", raptor_task_id := "", mindmap_task_id := "" }
     ((∃ p, (run_aggregate .graphrag true "tnew" st "k1").1
        = .conflict (kb_task_pointer kb .graphrag) p)
      ↔ kb_task_pointer kb .graphrag ≠ ""
        ∧ ∃ t, get_task_by_id st (kb_task_pointer kb .graphrag) = some t
            ∧ t.progress ≠ -1 ∧ t.progress ≠ 1)
    ∧ (∀ tid p, (run_aggregate .graphrag true "tnew" st "k1").1 = .conflict tid p →
        tid = kb_task_pointer kb .graphrag ∧ get_task_by_id st tid ≠ none)
    ∧ ((∀ t, get_task_by_id st (kb_task_pointer kb .graphrag) = some t →
          t.progress = -1 ∨ t.progress = 1) →
        get_documents_by_kb_id st "k1" ≠ [] →
        (run_aggregate .graphrag true "tnew" st "k1").1 = .okTask "tnew")) :=
  C1_aggregate_dispatch_single_flight .graphrag true "tnew" _ "k1" _
    (by decide) (by rfl)

/-- C7: for every successful aggregate dispatch, if the subsequent write of
the new Task id into the knowledge base's pointer field fails, the operation
still returns the new Task id to the caller, the created Task remains in the
ledger, and the knowledge-base rows (hence the pointer) are untouched. -/
theorem C7_dispatch_survives_pointer_write_failure (kind : AggKind)
    (new_task_id : String) (st : DB) (kb_id : String) (kb : Knowledgebase)
    (hne : kb_id ≠ "") (hkb : get_kb_by_id st kb_id = some kb)
    (hnoconf : ∀ t, get_task_by_id st (kb_task_pointer kb kind) = some t →
        t.progress = -1 ∨ t.progress = 1)
    (hdocs : get_documents_by_kb_id st kb_id ≠ []) :
    (run_aggregate kind false new_task_id st kb_id).1 = .okTask new_task_id
    ∧ (⟨new_task_id, GRAPH_RAPTOR_FAKE_DOC_ID, 0⟩ : Task)
        ∈ (run_aggregate kind false new_task_id st kb_id).2.tasks
    ∧ (run_aggregate kind false new_task_id st kb_id).2.kbs = st.kbs := by
  rw [run_aggregate_no_conflict_eq kind false new_task_id st kb_id kb hne hkb hnoconf hdocs]
  simp

/-- C7 witness: a one-document knowledge base with an unset pointer; the
dispatch with a failing pointer write still returns the task id and keeps the
created task. -/
theorem C7_witness :
    (let st : DB :=
      { kbs := [{ id := "k1", tenant_id := "t1", chunk_num := 0, token_num := 0,
                  graphrag_task_id := "", raptor_task_id := "", mindmap_task_id := "" }],
        docs := [{ id := "d1", kb_id := "k1", parser_id := "naive", pipeline_id := "",
                   run := "3", progress := 1, progress_msg := "", chunk_num := 1,
                   token_num := 1, process_duration := 0 }],
        tasks := [], index := [], partitions := [], f2ds := [], files := [],
        blobs := [], field_maps := [] }
     (run_aggregate .graphrag false "tnew" st "k1").1 = .okTask "tnew"
    ∧ (⟨"tnew", GRAPH_RAPTOR_FAKE_DOC_ID, 0⟩ : Task)
        ∈ (run_aggregate .graphrag false "tnew" st "k1").2.tasks
    ∧ (run_aggregate .graphrag false "tnew" st "k1").2.kbs
        = [{ id := "k1", tenant_id := "t1", chunk_num := 0, token_num := 0,
             graphrag_task_id := "", raptor_task_id := "", mindmap_task_id := "" }]) :=
  C7_dispatch_survives_pointer_write_failure .graphrag "tnew" _ "k1"
    { id := "k1", tenant_id := "t1", chunk_num := 0, token_num := 0,
      graphrag_task_id := "", raptor_task_id := "", mindmap_task_id := "" }
    (by decide) (by rfl) (by intro t ht; simp [get_task_by_id] at ht) (by decide)

/-- Helper: the descending-pagerank comparison is transitive. -/
theorem node_ge_trans : ∀ a b c : GNode,
    node_ge a b = true → node_ge b c = true → node_ge a c = true := by
  intro a b c hab hbc
  simp only [node_ge, decide_eq_true_eq] at *
  exact le_trans hbc hab

/-- Helper: the descending-pagerank comparison is total. -/
theorem node_ge_total : ∀ a b : GNode, (node_ge a b || node_ge b a) = true := by
  intro a b
  simp only [node_ge, Bool.or_eq_true, decide_eq_true_eq]
  exact le_total _ _

/-- Helper: the descending-weight comparison is transitive. -/
theorem edge_ge_trans : ∀ a b c : GEdge,
    edge_ge a b = true → edge_ge b c = true → edge_ge a c = true := by
  intro a b c hab hbc
  simp only [edge_ge, decide_eq_true_eq] at *
  exact le_trans hbc hab

/-- Helper: the descending-weight comparison is total. -/
theorem edge_ge_total : ∀ a b : GEdge, (edge_ge a b || edge_ge b a) = true := by
  intro a b
  simp only [edge_ge, Bool.or_eq_true, decide_eq_true_eq]
  exact le_total _ _

/-- Helper: computation of the graph view when the highest-ranked hit is a
parsed `graph` object with a node list. -/
theorem knowledge_graph_graph_hit (h : KGHit) (tl : List KGHit) (c : KGraph)
    (ns : List GNode) (hkwd : h.knowledge_graph_kwd = "graph")
    (hc : h.content = some c) (hns : c.nodes = some ns) :
    knowledge_graph true (h :: tl) =
      (match c.edges with
       | none =>
         { graph := { nodes := some ((ns.mergeSort node_ge).take 256), edges := none },
           mind_map := { nodes := none, edges := none }, extra := [] }
       | some es =>
         { graph :=
             { nodes := some ((ns.mergeSort node_ge).take 256),
               edges := some (((es.filter (fun o =>
                   o.source != o.target
                     && (((ns.mergeSort node_ge).take 256).map (fun o => o.id)).contains
                         o.source
                     && (((ns.mergeSort node_ge).take 256).map (fun o => o.id)).contains
                         o.target)).mergeSort edge_ge).take 128) },
           mind_map := { nodes := none, edges := none }, extra := [] }) := by
  cases hce : c.edges with
  | none => simp [knowledge_graph, kg_view_set, empty_kg_view, hkwd, hc, hns, hce]
  | some es => simp [knowledge_graph, kg_view_set, empty_kg_view, hkwd, hc, hns, hce]

/-- C2: for every graph-view request whose highest-ranked hit parses to a
graph object containing a node list, the returned graph holds the 256 nodes
of highest pagerank (missing pagerank treated as 0) sorted descending by
pagerank — its node list is a permutation of a top segment of the input
nodes, every kept node outranking every dropped one — and, if an edge list is
present, the returned edges contain no self-loop, no edge with an endpoint
outside the truncated node set, come from the input edge list, are sorted
descending by weight (missing weight treated as 0), and number at most
128. -/
theorem C2_graph_view_truncation (hits : List KGHit) (h : KGHit) (tl : List KGHit)
    (c : KGraph) (ns : List GNode)
    (hhits : hits = h :: tl) (hkwd : h.knowledge_graph_kwd = "graph")
    (hc : h.content = some c) (hns : c.nodes = some ns) :
    ∃ ns2, (knowledge_graph true hits).graph.nodes = some ns2
      ∧ ns2.length = min 256 ns.length
      ∧ List.Pairwise (fun a b => (b.pagerank.getD 0 : Rat) ≤ a.pagerank.getD 0) ns2
      ∧ (∃ dropped, (ns2 ++ dropped).Perm ns
          ∧ ∀ a ∈ ns2, ∀ b ∈ dropped, (b.pagerank.getD 0 : Rat) ≤ a.pagerank.getD 0)
      ∧ ∀ es, c.edges = some es →
          ∃ es2, (knowledge_graph true hits).graph.edges = some es2
            ∧ es2.length ≤ 128
            ∧ List.Pairwise (fun a b => (b.weight.getD 0 : Rat) ≤ a.weight.getD 0) es2
            ∧ ∀ e ∈ es2, e.source ≠ e.target
                ∧ e.source ∈ ns2.map (fun o => o.id)
                ∧ e.target ∈ ns2.map (fun o => o.id)
                ∧ e ∈ es := by
  subst hhits
  have hsorted := List.sorted_mergeSort node_ge_trans node_ge_total ns
  have hperm := List.mergeSort_perm ns node_ge
  refine ⟨(ns.mergeSort node_ge).take 256, ?_, ?_, ?_, ?_, ?_⟩
  · rw [knowledge_graph_graph_hit h tl c ns hkwd hc hns]
    cases hce : c.edges <;> simp [hce]
  · rw [List.length_take, hperm.length_eq]
  · exact (List.Pairwise.sublist (List.take_sublist 256 _) hsorted).imp
      (fun hab => of_decide_eq_true hab)
  · refine ⟨(ns.mergeSort node_ge).drop 256, ?_, ?_⟩
    · rw [List.take_append_drop]
      exact hperm
    · have hsplit : List.Pairwise (fun a b => node_ge a b = true)
          ((ns.mergeSort node_ge).take 256 ++ (ns.mergeSort node_ge).drop 256) := by
        rw [List.take_append_drop]
        exact hsorted
      have := List.pairwise_append.mp hsplit
      exact fun a ha b hb => of_decide_eq_true (this.2.2 a ha b hb)
  · intro es hce
    rw [knowledge_graph_graph_hit h tl c ns hkwd hc hns, hce]
    have hesorted := List.sorted_mergeSort edge_ge_trans edge_ge_total
      (es.filter (fun o =>
        o.source != o.target
          && (((ns.mergeSort node_ge).take 256).map (fun o => o.id)).contains o.source
          && (((ns.mergeSort node_ge).take 256).map (fun o => o.id)).contains o.target))
    refine ⟨_, rfl, ?_, ?_, ?_⟩
    · rw [List.length_take]
      exact min_le_left _ _
    · exact (List.Pairwise.sublist (List.take_sublist 128 _) hesorted).imp
        (fun hab => of_decide_eq_true hab)
    · intro e he
      have he1 : e ∈ (es.filter (fun o =>
          o.source != o.target
            && (((ns.mergeSort node_ge).take 256).map (fun o => o.id)).contains o.source
            && (((ns.mergeSort node_ge).take 256).map (fun o => o.id)).contains o.target)) := by
        have := List.take_subset 128 _ he
        exact (List.mergeSort_perm _ edge_ge).mem_iff.mp this
      rcases List.mem_filter.mp he1 with ⟨hmem, hpred⟩
      have hpred1 := hpred
      simp only [Bool.and_eq_true, bne_iff_ne] at hpred1
      refine ⟨hpred1.1.1, ?_, ?_, hmem⟩
      · simpa using hpred1.1.2
      · simpa using hpred1.2

/-- C2 witness node list: three nodes, one without a pagerank key. -/
def C2_nodes : List GNode := [⟨"a", some 1⟩, ⟨"b", none⟩, ⟨"c", some 3⟩]

/-- C2 witness edge list: a self-loop and two ordinary edges. -/
def C2_edges : List GEdge :=
  [⟨"a", "a", some 5⟩, ⟨"a", "b", some 2⟩, ⟨"c", "a", some 4⟩]

/-- C2 witness content object. -/
def C2_content : KGraph := { nodes := some C2_nodes, edges := some C2_edges }

/-- C2 witness hit: a `graph`-tagged hit that parses to `C2_content`. -/
def C2_hit : KGHit := { knowledge_graph_kwd := "graph", content := some C2_content }

/-- C2 witness: on the concrete three-node, three-edge hit all the bounds of
the graph view hold. -/
theorem C2_witness :
    ∃ ns2, (knowledge_graph true [C2_hit]).graph.nodes = some ns2
      ∧ ns2.length = min 256 C2_nodes.length
      ∧ List.Pairwise (fun a b => (b.pagerank.getD 0 : Rat) ≤ a.pagerank.getD 0) ns2
      ∧ (∃ dropped, (ns2 ++ dropped).Perm C2_nodes
          ∧ ∀ a ∈ ns2, ∀ b ∈ dropped, (b.pagerank.getD 0 : Rat) ≤ a.pagerank.getD 0)
      ∧ ∀ es, C2_content.edges = some es →
          ∃ es2, (knowledge_graph true [C2_hit]).graph.edges = some es2
            ∧ es2.length ≤ 128
            ∧ List.Pairwise (fun a b => (b.weight.getD 0 : Rat) ≤ a.weight.getD 0) es2
            ∧ ∀ e ∈ es2, e.source ≠ e.target
                ∧ e.source ∈ ns2.map (fun o => o.id)
                ∧ e.target ∈ ns2.map (fun o => o.id)
                ∧ e ∈ es :=
  C2_graph_view_truncation [C2_hit] C2_hit [] C2_content C2_nodes rfl rfl rfl rfl

/-- Helper: the document-record update leaves the task table unchanged. -/
theorem tasks_doc_update (st : DB) (id : String) (f : Document → Document) :
    (doc_update_by_id st id f).tasks = st.tasks := rfl

/-- Helper: the per-document index deletion leaves the task table
unchanged. -/
theorem tasks_index_delete (st : DB) (t k d : String) :
    (index_delete_by_doc st t k d).tasks = st.tasks := rfl

/-- C3: for every document (with a resolvable tenant), a run request with
`run = CANCEL` succeeds — deleting all outstanding Task rows for that
document — exactly when the document's current run-state is `RUNNING`; in
any other run-state the request fails with the state-conflict error. -/
theorem C3_cancel_iff_running (st : DB) (id : String) (req_delete : Bool)
    (doc : Document) (kb : Knowledgebase)
    (hdoc : get_doc_by_id st id = some doc)
    (hkb : get_kb_by_id st doc.kb_id = some kb) :
    (doc.run = TaskStatus_RUNNING →
      (run (fun _ => true) TaskStatus_CANCEL req_delete st [id]).answer = .okTrue
      ∧ ∀ t ∈ (run (fun _ => true) TaskStatus_CANCEL req_delete st [id]).st.tasks,
          t.doc_id ≠ id)
    ∧ (doc.run ≠ TaskStatus_RUNNING →
      (run (fun _ => true) TaskStatus_CANCEL req_delete st [id]).answer
        = .dataError "Cannot cancel a task that is not in RUNNING status") := by
  have htenant : get_tenant_id st id = some kb.tenant_id := by
    simp [get_tenant_id, hdoc, hkb]
  refine ⟨?_, ?_⟩
  · intro hrun
    simp only [TaskStatus_RUNNING] at hrun
    refine ⟨?_, ?_⟩
    · cases req_delete <;>
        simp [run, run_loop, run_one, htenant, hdoc, hrun, TaskStatus_RUNNING,
          TaskStatus_CANCEL]
    · intro t ht
      cases req_delete with
      | false =>
        simp [run, run_loop, run_one, htenant, hdoc, hrun, TaskStatus_RUNNING,
          TaskStatus_CANCEL, cancel_all_task_of, task_filter_delete_by_doc,
          doc_update_by_id, index_delete_by_doc, index_exist,
          List.mem_filter] at ht
        exact ht.2
      | true =>
        simp [run, run_loop, run_one, htenant, hdoc, hrun, TaskStatus_RUNNING,
          TaskStatus_CANCEL, cancel_all_task_of, task_filter_delete_by_doc,
          doc_update_by_id, index_delete_by_doc, index_exist,
          List.mem_filter] at ht
        split at ht <;> simp_all [List.mem_filter]
  · intro hrun
    simp only [TaskStatus_RUNNING] at hrun
    simp [run, run_loop, run_one, htenant, hdoc, hrun, TaskStatus_RUNNING,
      TaskStatus_CANCEL]

/-- C3 witness: a running document with one outstanding task and one
unrelated task; cancelling succeeds and removes exactly its task rows. -/
theorem C3_witness :
    (let st : DB :=
      { kbs := [{ id := "k1", tenant_id := "t1", chunk_num := 0, token_num := 0,
                  graphrag_task_id := "", raptor_task_id := "", mindmap_task_id := "" }],
        docs := [{ id := "d1", kb_id := "k1", parser_id := "naive", pipeline_id := "",
                   run := TaskStatus_RUNNING, progress := 0, progress_msg := "",
                   chunk_num := 0, token_num := 0, process_duration := 0 }],
        tasks := [{ id := "ta", doc_id := "d1", progress := 0 },
                  { id := "tb", doc_id := "d2", progress := 0 }],
        index := [], partitions := [], f2ds := [], files := [], blobs := [],
        field_maps := [] }
     let doc : Document :=
      { id := "d1", kb_id := "k1", parser_id := "naive", pipeline_id := "",
        run := TaskStatus_RUNNING, progress := 0, progress_msg := "",
        chunk_num := 0, token_num := 0, process_duration := 0 }
     (doc.run = TaskStatus_RUNNING →
      (run (fun _ => true) TaskStatus_CANCEL false st ["d1"]).answer = .okTrue
      ∧ ∀ t ∈ (run (fun _ => true) TaskStatus_CANCEL false st ["d1"]).st.tasks,
          t.doc_id ≠ "d1")
    ∧ (doc.run ≠ TaskStatus_RUNNING →
      (run (fun _ => true) TaskStatus_CANCEL false st ["d1"]).answer
        = .dataError "Cannot cancel a task that is not in RUNNING status")) :=
  C3_cancel_iff_running _ "d1" false _ _ (by rfl) (by rfl)

/-- Helper: `find?` commutes with a map that preserves the predicate. -/
theorem find?_map_comm {α : Type} (l : List α) (p : α → Bool) (f : α → α)
    (hp : ∀ a, p (f a) = p a) :
    (l.map f).find? p = (l.find? p).map f := by
  induction l with
  | nil => rfl
  | cons x xs ih =>
    by_cases hx : p x
    · simp [List.find?_cons, hp, hx]
    · simp [List.find?_cons, hp, hx, ih]

/-- Helper: a successful document lookup returns a row bearing the looked-up
id. -/
theorem get_doc_by_id_eq_some (st : DB) (i : String) (d : Document)
    (h : get_doc_by_id st i = some d) : d.id = i := by
  have h2 : st.docs.find? (fun x => x.id == i) = some d := by
    simpa [get_doc_by_id] using h
  simpa using List.find?_some h2

/-- Helper: a successful knowledge-base lookup returns a row bearing the
looked-up id. -/
theorem get_kb_by_id_eq_some (st : DB) (i : String) (k : Knowledgebase)
    (h : get_kb_by_id st i = some k) : k.id = i := by
  have h2 : st.kbs.find? (fun x => x.id == i) = some k := by
    simpa [get_kb_by_id] using h
  simpa using List.find?_some h2

/-- Helper: looking a document up after `update_by_id` yields the updated
row, for any update that preserves the id. -/
theorem get_doc_by_id_update (st : DB) (i : String) (f : Document → Document)
    (hf : ∀ d, (f d).id = d.id) :
    get_doc_by_id (doc_update_by_id st i f) i
      = (get_doc_by_id st i).map (fun d => if d.id == i then f d else d) := by
  unfold get_doc_by_id doc_update_by_id
  refine find?_map_comm st.docs _ _ (fun a => ?_)
  by_cases h : a.id = i <;> simp [h, hf]

/-- Helper: the knowledge-base aggregate rollback rewrites the looked-up row
and nothing else. -/
theorem get_kb_by_id_clear_chunk (st : DB) (i : String) (doc : Document)
    (hdoc : get_doc_by_id st i = some doc) (kb_id : String) :
    get_kb_by_id (clear_chunk_num_when_rerun st i) kb_id
      = (get_kb_by_id st kb_id).map (fun k =>
          if k.id == doc.kb_id then
            { k with chunk_num := k.chunk_num - doc.chunk_num,
                     token_num := k.token_num - doc.token_num }
          else k) := by
  unfold clear_chunk_num_when_rerun
  rw [hdoc]
  unfold get_kb_by_id
  refine find?_map_comm st.kbs _ _ (fun a => ?_)
  by_cases h : a.id = doc.kb_id <;> simp [h]

/-- Helper: the aggregate rollback leaves the document table unchanged. -/
theorem docs_clear_chunk (st : DB) (i : String) :
    (clear_chunk_num_when_rerun st i).docs = st.docs := by
  unfold clear_chunk_num_when_rerun
  cases get_doc_by_id st i <;> rfl

/-- Helper: the aggregate rollback leaves the linkage table unchanged. -/
theorem f2ds_clear_chunk (st : DB) (i : String) :
    (clear_chunk_num_when_rerun st i).f2ds = st.f2ds := by
  unfold clear_chunk_num_when_rerun
  cases get_doc_by_id st i <;> rfl

/-- Helper: the aggregate rollback leaves the partition set unchanged. -/
theorem partitions_clear_chunk (st : DB) (i : String) :
    (clear_chunk_num_when_rerun st i).partitions = st.partitions := by
  unfold clear_chunk_num_when_rerun
  cases get_doc_by_id st i <;> rfl

/-- Helper: the info update leaves the partition set unchanged. -/
theorem partitions_doc_update (st : DB) (i : String) (f : Document → Document) :
    (doc_update_by_id st i f).partitions = st.partitions := rfl

/-- Helper: the task deletion leaves the partition set unchanged. -/
theorem partitions_task_filter (st : DB) (d : String) :
    (task_filter_delete_by_doc st d).partitions = st.partitions := rfl

/-- Helper: the info update leaves the linkage table unchanged. -/
theorem f2ds_doc_update (st : DB) (i : String) (f : Document → Document) :
    (doc_update_by_id st i f).f2ds = st.f2ds := rfl

/-- Helper: the task deletion leaves the linkage table unchanged. -/
theorem f2ds_task_filter (st : DB) (d : String) :
    (task_filter_delete_by_doc st d).f2ds = st.f2ds := rfl

/-- Helper: the per-document index deletion leaves the linkage table
unchanged. -/
theorem f2ds_index_delete (st : DB) (t k d : String) :
    (index_delete_by_doc st t k d).f2ds = st.f2ds := rfl

/-- Helper: the field-map invalidation leaves the linkage table unchanged. -/
theorem f2ds_field_map_delete (st : DB) (k : String) :
    (delete_field_map st k).f2ds = st.f2ds := rfl

/-- Helper: the task deletion leaves the document table unchanged. -/
theorem docs_task_filter (st : DB) (d : String) :
    (task_filter_delete_by_doc st d).docs = st.docs := rfl

/-- Helper: the per-document index deletion leaves the document table
unchanged. -/
theorem docs_index_delete (st : DB) (t k d : String) :
    (index_delete_by_doc st t k d).docs = st.docs := rfl

/-- Helper: the field-map invalidation leaves the document table
unchanged. -/
theorem docs_field_map_delete (st : DB) (k : String) :
    (delete_field_map st k).docs = st.docs := rfl

/-- Helper: the info update leaves the knowledge-base table unchanged. -/
theorem kbs_doc_update (st : DB) (i : String) (f : Document → Document) :
    (doc_update_by_id st i f).kbs = st.kbs := rfl

/-- Helper: the task deletion leaves the knowledge-base table unchanged. -/
theorem kbs_task_filter (st : DB) (d : String) :
    (task_filter_delete_by_doc st d).kbs = st.kbs := rfl

/-- Helper: the per-document index deletion leaves the knowledge-base table
unchanged. -/
theorem kbs_index_delete (st : DB) (t k d : String) :
    (index_delete_by_doc st t k d).kbs = st.kbs := rfl

/-- Helper: the field-map invalidation leaves the knowledge-base table
unchanged. -/
theorem kbs_field_map_delete (st : DB) (k : String) :
    (delete_field_map st k).kbs = st.kbs := rfl

/-- Helper: the empty `kb_table_num_map` holds no entry. -/
theorem ktm_get_nil (k : String) : ktm_get [] k = none := rfl

/-- Helper: the intermediate state of a destructive rerun after the
aggregate rollback, info update, task deletion and index deletion. -/
def C4_mid_state (st : DB) (id tenant kbid : String) : DB :=
  index_delete_by_doc
    (task_filter_delete_by_doc
      (doc_update_by_id (clear_chunk_num_when_rerun st id) id
        (apply_run_info TaskStatus_RUNNING true)) id)
    tenant kbid id

/-- Helper: shape of a destructive-rerun request on a DONE document — the
request succeeds, the final state agrees with `C4_mid_state` on documents and
knowledge bases, and the trace is the rollback/reset/delete prefix followed
by at most a field-map invalidation and then the enqueue. -/
theorem C4_run_shape (st : DB) (id : String) (doc : Document) (kb : Knowledgebase)
    (hdoc : get_doc_by_id st id = some doc)
    (hkb : get_kb_by_id st doc.kb_id = some kb)
    (hdone : doc.run = TaskStatus_DONE)
    (hkbid : doc.kb_id ≠ "")
    (hroute : doc.pipeline_id ≠ "" ∨ ∃ bn, get_storage_address st id = some bn)
    (hie : index_exist st kb.tenant_id doc.kb_id = true) :
    ∃ stF mid enq,
      run (fun _ => true) TaskStatus_RUNNING true st [id]
        = ⟨.okTrue, stF,
           [Effect.clearChunkNumWhenRerun id, Effect.docUpdate id,
            Effect.taskFilterDelete id,
            Effect.indexDeleteByDoc kb.tenant_id doc.kb_id id] ++ mid ++ [enq]⟩
      ∧ stF.docs = (C4_mid_state st id kb.tenant_id doc.kb_id).docs
      ∧ stF.kbs = (C4_mid_state st id kb.tenant_id doc.kb_id).kbs
      ∧ (∀ x ∈ mid, x = Effect.fieldMapDelete doc.kb_id)
      ∧ ((∃ p, enq = Effect.enqueuePipeline kb.tenant_id p id)
          ∨ ∃ b n, enq = Effect.enqueueParse id b n) := by
  have htenant : get_tenant_id st id = some kb.tenant_id := by
    simp [get_tenant_id, hdoc, hkb]
  have e1 : (TaskStatus_RUNNING == TaskStatus_CANCEL) = false := rfl
  have e2 : (TaskStatus_RUNNING == TaskStatus_RUNNING) = true := rfl
  have e3 : (doc.run == TaskStatus_DONE) = true := by simp [hdone]
  have hie2 : (kb.tenant_id, doc.kb_id) ∈ st.partitions := by
    simpa [index_exist] using hie
  by_cases hpipe : doc.pipeline_id = ""
  · rcases hroute with hp | ⟨⟨b, n⟩, hsa⟩
    · exact absurd hpipe hp
    · have hsa2 : (st.f2ds.find? (fun f => f.doc_id == id)).map
          (fun f => (f.bucket, f.name)) = some (b, n) := by
        simpa [get_storage_address] using hsa
      by_cases hpt : doc.parser_id = ParserType_TABLE
      · by_cases hcount :
          count_by_kb_id_done (C4_mid_state st id kb.tenant_id doc.kb_id) doc.kb_id ≤ 0
        · refine ⟨delete_field_map (C4_mid_state st id kb.tenant_id doc.kb_id) doc.kb_id,
            [Effect.fieldMapDelete doc.kb_id], Effect.enqueueParse id b n, ?_,
            by simp [docs_field_map_delete], by simp [kbs_field_map_delete],
            by simp, Or.inr ⟨b, n, rfl⟩⟩
          simp only [C4_mid_state] at hcount
          simp [run, run_loop, run_one, htenant, hdoc, e1, e2, e3, hkbid, hpipe, hpt,
            hcount, C4_mid_state, index_exist, partitions_clear_chunk,
            partitions_doc_update, partitions_task_filter, hie2, ktm_get_nil,
            get_storage_address, f2ds_clear_chunk, f2ds_doc_update, f2ds_task_filter,
            f2ds_index_delete, f2ds_field_map_delete, hsa2]
        · refine ⟨C4_mid_state st id kb.tenant_id doc.kb_id,
            [], Effect.enqueueParse id b n, ?_, rfl, rfl, by simp, Or.inr ⟨b, n, rfl⟩⟩
          simp only [C4_mid_state] at hcount
          simp [run, run_loop, run_one, htenant, hdoc, e1, e2, e3, hkbid, hpipe, hpt,
            hcount, C4_mid_state, index_exist, partitions_clear_chunk,
            partitions_doc_update, partitions_task_filter, hie2, ktm_get_nil,
            get_storage_address, f2ds_clear_chunk, f2ds_doc_update, f2ds_task_filter,
            f2ds_index_delete, hsa2]
      · refine ⟨C4_mid_state st id kb.tenant_id doc.kb_id,
          [], Effect.enqueueParse id b n, ?_, rfl, rfl, by simp, Or.inr ⟨b, n, rfl⟩⟩
        simp [run, run_loop, run_one, htenant, hdoc, e1, e2, e3, hkbid, hpipe, hpt,
          C4_mid_state, index_exist, partitions_clear_chunk,
          partitions_doc_update, partitions_task_filter, hie2, ktm_get_nil,
          get_storage_address, f2ds_clear_chunk, f2ds_doc_update, f2ds_task_filter,
          f2ds_index_delete, hsa2]
  · by_cases hpt : doc.parser_id = ParserType_TABLE
    · by_cases hcount :
        count_by_kb_id_done (C4_mid_state st id kb.tenant_id doc.kb_id) doc.kb_id ≤ 0
      · refine ⟨delete_field_map (C4_mid_state st id kb.tenant_id doc.kb_id) doc.kb_id,
          [Effect.fieldMapDelete doc.kb_id],
          Effect.enqueuePipeline kb.tenant_id doc.pipeline_id id, ?_,
          by simp [docs_field_map_delete], by simp [kbs_field_map_delete],
          by simp, Or.inl ⟨doc.pipeline_id, rfl⟩⟩
        simp only [C4_mid_state] at hcount
        simp [run, run_loop, run_one, htenant, hdoc, e1, e2, e3, hkbid, hpipe, hpt,
          hcount, C4_mid_state, index_exist, partitions_clear_chunk,
          partitions_doc_update, partitions_task_filter, hie2, ktm_get_nil]
      · refine ⟨C4_mid_state st id kb.tenant_id doc.kb_id, [],
          Effect.enqueuePipeline kb.tenant_id doc.pipeline_id id, ?_, rfl, rfl,
          by simp, Or.inl ⟨doc.pipeline_id, rfl⟩⟩
        simp only [C4_mid_state] at hcount
        simp [run, run_loop, run_one, htenant, hdoc, e1, e2, e3, hkbid, hpipe, hpt,
          hcount, C4_mid_state, index_exist, partitions_clear_chunk,
          partitions_doc_update, partitions_task_filter, hie2, ktm_get_nil]
    · refine ⟨C4_mid_state st id kb.tenant_id doc.kb_id, [],
        Effect.enqueuePipeline kb.tenant_id doc.pipeline_id id, ?_, rfl, rfl,
        by simp, Or.inl ⟨doc.pipeline_id, rfl⟩⟩
      simp [run, run_loop, run_one, htenant, hdoc, e1, e2, e3, hkbid, hpipe, hpt,
        C4_mid_state, index_exist, partitions_clear_chunk,
        partitions_doc_update, partitions_task_filter, hie2, ktm_get_nil]

/-- C4 (amended): for every document whose run-state is DONE, a run request
with `run = RUNNING` and `delete = true` first decrements the knowledge
base's aggregate counters by the amounts previously attributed to that
document, resets the document's `chunk_num` and `token_num` to zero and
clears `progress_msg` to empty (leaving `process_duration` untouched — the
correction to the claim as stated), and deletes the document's prior task
rows and index entries, all before the new work unit is created/enqueued. -/
theorem C4_rerun_resets_before_enqueue (st : DB) (id : String)
    (doc : Document) (kb : Knowledgebase)
    (hdoc : get_doc_by_id st id = some doc)
    (hkb : get_kb_by_id st doc.kb_id = some kb)
    (hdone : doc.run = TaskStatus_DONE)
    (hkbid : doc.kb_id ≠ "")
    (hroute : doc.pipeline_id ≠ "" ∨ ∃ bn, get_storage_address st id = some bn)
    (hie : index_exist st kb.tenant_id doc.kb_id = true) :
    (run (fun _ => true) TaskStatus_RUNNING true st [id]).answer = .okTrue
    ∧ get_doc_by_id (run (fun _ => true) TaskStatus_RUNNING true st [id]).st id
        = some { doc with
                   run := TaskStatus_RUNNING, progress := 0,
                   progress_msg := "", chunk_num := 0, token_num := 0 }
    ∧ get_kb_by_id (run (fun _ => true) TaskStatus_RUNNING true st [id]).st doc.kb_id
        = some { kb with
                   chunk_num := kb.chunk_num - doc.chunk_num,
                   token_num := kb.token_num - doc.token_num }
    ∧ ∃ mid enq,
        (run (fun _ => true) TaskStatus_RUNNING true st [id]).trace
          = [Effect.clearChunkNumWhenRerun id, Effect.docUpdate id,
             Effect.taskFilterDelete id,
             Effect.indexDeleteByDoc kb.tenant_id doc.kb_id id] ++ mid ++ [enq]
        ∧ (∀ x ∈ mid, x = Effect.fieldMapDelete doc.kb_id)
        ∧ ((∃ p, enq = Effect.enqueuePipeline kb.tenant_id p id)
            ∨ ∃ b n, enq = Effect.enqueueParse id b n) := by
  obtain ⟨stF, mid, enq, hrun_eq, hdocsF, hkbsF, hmid, henq⟩ :=
    C4_run_shape st id doc kb hdoc hkb hdone hkbid hroute hie
  have hdocid : doc.id = id := get_doc_by_id_eq_some st id doc hdoc
  have hkbid2 : kb.id = doc.kb_id := get_kb_by_id_eq_some st doc.kb_id kb hkb
  have hdoc_clear : get_doc_by_id (clear_chunk_num_when_rerun st id) id = some doc := by
    simpa [get_doc_by_id, docs_clear_chunk] using hdoc
  have hgd : get_doc_by_id (C4_mid_state st id kb.tenant_id doc.kb_id) id
      = some (apply_run_info TaskStatus_RUNNING true doc) := by
    have h1 : get_doc_by_id (C4_mid_state st id kb.tenant_id doc.kb_id) id
        = get_doc_by_id (doc_update_by_id (clear_chunk_num_when_rerun st id) id
            (apply_run_info TaskStatus_RUNNING true)) id := by
      simp [get_doc_by_id, C4_mid_state, docs_index_delete, docs_task_filter]
    rw [h1, get_doc_by_id_update (clear_chunk_num_when_rerun st id) id
      (apply_run_info TaskStatus_RUNNING true) (fun d => by simp [apply_run_info]),
      hdoc_clear]
    simp [hdocid]
  have hgk : get_kb_by_id (C4_mid_state st id kb.tenant_id doc.kb_id) doc.kb_id
      = some { kb with
                 chunk_num := kb.chunk_num - doc.chunk_num,
                 token_num := kb.token_num - doc.token_num } := by
    have h1 : get_kb_by_id (C4_mid_state st id kb.tenant_id doc.kb_id) doc.kb_id
        = get_kb_by_id (clear_chunk_num_when_rerun st id) doc.kb_id := by
      simp [get_kb_by_id, C4_mid_state, kbs_index_delete, kbs_task_filter, kbs_doc_update]
    rw [h1, get_kb_by_id_clear_chunk st id doc hdoc, hkb]
    simp [hkbid2]
  refine ⟨by rw [hrun_eq], ?_, ?_, mid, enq, by rw [hrun_eq], hmid, henq⟩
  · rw [hrun_eq]
    have : get_doc_by_id stF id = get_doc_by_id (C4_mid_state st id kb.tenant_id doc.kb_id) id := by
      simp [get_doc_by_id, hdocsF]
    rw [show (RunResult.mk RunAnswer.okTrue stF _).st = stF from rfl] at *
    rw [this, hgd]
    simp [apply_run_info, TaskStatus_RUNNING]
  · rw [hrun_eq]
    have : get_kb_by_id stF doc.kb_id
        = get_kb_by_id (C4_mid_state st id kb.tenant_id doc.kb_id) doc.kb_id := by
      simp [get_kb_by_id, hkbsF]
    rw [show (RunResult.mk RunAnswer.okTrue stF _).st = stF from rfl] at *
    rw [this, hgk]

/-- C4 counterexample state: one DONE document with nonzero counters and a
nonzero process duration, with linkage, blob and index partition present. -/
def C4_db : DB :=
  { kbs := [{ id := "k1", tenant_id := "t1", chunk_num := 10, token_num := 20,
              graphrag_task_id := "", raptor_task_id := "", mindmap_task_id := "" }],
    docs := [{ id := "d1", kb_id := "k1", parser_id := "naive", pipeline_id := "",
               run := TaskStatus_DONE, progress := 1, progress_msg := "done",
               chunk_num := 3, token_num := 7, process_duration := 5 }],
    tasks := [{ id := "t1", doc_id := "d1", progress := 1 }],
    index := [{ tenant_id := "t1", kb_id := "k1", doc_id := "d1",
                knowledge_graph_kwd := "", available_int := 1 }],
    partitions := [("t1", "k1")],
    f2ds := [{ doc_id := "d1", file_id := "f1", bucket := "b1", name := "n1" }],
    files := [{ id := "f1", source_type := FileSource_KNOWLEDGEBASE }],
    blobs := [("b1", "n1")], field_maps := [] }

/-- C4 counterexample: on `C4_db` the document's `process_duration` is still
5 after the destructive rerun, so the claim's "resets process_duration to
zero" is false on the code. -/
theorem C4_counterexample :
    (get_doc_by_id (run (fun _ => true) TaskStatus_RUNNING true C4_db ["d1"]).st
        "d1").map (fun d => d.process_duration) = some 5
    ∧ ((5 : Rat) ≠ 0) := by
  constructor
  · rfl
  · decide

/-- C4 witness: the amended rerun-reset property at the concrete state
`C4_db`. -/
theorem C4_witness :
    (run (fun _ => true) TaskStatus_RUNNING true C4_db ["d1"]).answer = .okTrue
    ∧ get_doc_by_id (run (fun _ => true) TaskStatus_RUNNING true C4_db ["d1"]).st "d1"
        = some { ({ id := "d1", kb_id := "k1", parser_id := "naive", pipeline_id := "",
                    run := TaskStatus_DONE, progress := 1, progress_msg := "done",
                    chunk_num := 3, token_num := 7,
                    process_duration := 5 } : Document) with
                 run := TaskStatus_RUNNING, progress := 0,
                 progress_msg := "", chunk_num := 0, token_num := 0 }
    ∧ get_kb_by_id (run (fun _ => true) TaskStatus_RUNNING true C4_db ["d1"]).st "k1"
        = some { ({ id := "k1", tenant_id := "t1", chunk_num := 10, token_num := 20,
                    graphrag_task_id := "", raptor_task_id := "",
                    mindmap_task_id := "" } : Knowledgebase) with
                 chunk_num := (10 : Int) - 3, token_num := (20 : Int) - 7 }
    ∧ ∃ mid enq,
        (run (fun _ => true) TaskStatus_RUNNING true C4_db ["d1"]).trace
          = [Effect.clearChunkNumWhenRerun "d1", Effect.docUpdate "d1",
             Effect.taskFilterDelete "d1",
             Effect.indexDeleteByDoc "t1" "k1" "d1"] ++ mid ++ [enq]
        ∧ (∀ x ∈ mid, x = Effect.fieldMapDelete "k1")
        ∧ ((∃ p, enq = Effect.enqueuePipeline "t1" p "d1")
            ∨ ∃ b n, enq = Effect.enqueueParse "d1" b n) :=
  C4_rerun_resets_before_enqueue C4_db "d1"
    { id := "d1", kb_id := "k1", parser_id := "naive", pipeline_id := "",
      run := TaskStatus_DONE, progress := 1, progress_msg := "done",
      chunk_num := 3, token_num := 7, process_duration := 5 }
    { id := "k1", tenant_id := "t1", chunk_num := 10, token_num := 20,
      graphrag_task_id := "", raptor_task_id := "", mindmap_task_id := "" }
    (by rfl) (by rfl) (by rfl) (by decide)
    (Or.inr ⟨("b1", "n1"), by rfl⟩) (by rfl)

/-- Helper: shape of a single-document `rm` on an existing, linked document —
the request succeeds and the final state's task, index and document tables
are the original ones with the document's rows filtered out. -/
theorem C5_rm_shape (oracles : RmOracles) (st : DB) (id : String)
    (doc : Document) (kb : Knowledgebase) (b n : String)
    (hacc : ∀ x, oracles.accessible4deletion x = true)
    (hdoc : get_doc_by_id st id = some doc)
    (hkb : get_kb_by_id st doc.kb_id = some kb)
    (hsa : get_storage_address st id = some (b, n))
    (hnoraise : ∀ b2 n2, oracles.storage_rm_raises b2 n2 = false) :
    (rm oracles st [id]).answer = .okTrue
    ∧ (rm oracles st [id]).st.tasks = st.tasks.filter (fun t => !(t.doc_id == id))
    ∧ (rm oracles st [id]).st.index = st.index.filter (fun e =>
        !(e.tenant_id == kb.tenant_id && e.kb_id == doc.kb_id && e.doc_id == doc.id))
    ∧ (rm oracles st [id]).st.docs = st.docs.filter (fun d => !(d.id == doc.id)) := by
  have htenant : get_tenant_id st id = some kb.tenant_id := by
    simp [get_tenant_id, hdoc, hkb]
  by_cases hpt : doc.parser_id = ParserType_TABLE <;>
  · cases hf2 : st.f2ds.filter (fun x => x.doc_id == id) with
    | nil =>
      refine ⟨?_, ?_, ?_, ?_⟩ <;>
        simp [rm, rm_loop, rm_one, hacc, hdoc, htenant, hsa, hnoraise, hpt,
          remove_document, task_filter_delete_by_doc, index_delete_by_doc,
          file_filter_delete_kb_source, f2d_delete_by_document_id, storage_rm,
          delete_field_map, ktm_get, ktm_set, hf2, apply_ite]
    | cons f fs =>
      by_cases hcnt : 0 < (st.files.filter
          (fun x => x.source_type == FileSource_KNOWLEDGEBASE && x.id == f.file_id)).length <;>
        refine ⟨?_, ?_, ?_, ?_⟩ <;>
          simp [rm, rm_loop, rm_one, hacc, hdoc, htenant, hsa, hnoraise, hpt, hcnt,
            remove_document, task_filter_delete_by_doc, index_delete_by_doc,
            file_filter_delete_kb_source, f2d_delete_by_document_id, storage_rm,
            delete_field_map, ktm_get, ktm_set, hf2, apply_ite]

/-- Helper: filtering out all rows satisfying a predicate makes a search for
that predicate come up empty. -/
theorem find?_filter_out {α : Type} (l : List α) (p q : α → Bool)
    (h : ∀ x, p x = true → q x = false) : (l.filter q).find? p = none := by
  rw [List.find?_eq_none]
  intro x hx
  rcases List.mem_filter.mp hx with ⟨_, hq⟩
  intro hp
  rw [h x hp] at hq
  exact Bool.false_ne_true hq

/-- C5 (amended): deleting a document removes every Task row referencing it
and every index entry keyed by its id (given that its index entries live in
its own knowledge base's partition) and removes the document row; calling
document delete a second time on the same id returns the `Document not
found!` data error with the state unchanged — it is not a successful
no-op. -/
theorem C5_delete_document (oracles : RmOracles) (st : DB) (id : String)
    (doc : Document) (kb : Knowledgebase) (b n : String)
    (hacc : ∀ x, oracles.accessible4deletion x = true)
    (hdoc : get_doc_by_id st id = some doc)
    (hkb : get_kb_by_id st doc.kb_id = some kb)
    (hsa : get_storage_address st id = some (b, n))
    (hnoraise : ∀ b2 n2, oracles.storage_rm_raises b2 n2 = false)
    (hwf : ∀ e ∈ st.index, e.doc_id = id →
        e.tenant_id = kb.tenant_id ∧ e.kb_id = doc.kb_id) :
    (rm oracles st [id]).answer = .okTrue
    ∧ (∀ t ∈ (rm oracles st [id]).st.tasks, t.doc_id ≠ id)
    ∧ (∀ e ∈ (rm oracles st [id]).st.index, e.doc_id ≠ id)
    ∧ get_doc_by_id (rm oracles st [id]).st id = none
    ∧ rm oracles (rm oracles st [id]).st [id]
        = ⟨.dataError "Document not found!", (rm oracles st [id]).st⟩ := by
  obtain ⟨ha, htasks, hindex, hdocs⟩ :=
    C5_rm_shape oracles st id doc kb b n hacc hdoc hkb hsa hnoraise
  have hdocid : doc.id = id := get_doc_by_id_eq_some st id doc hdoc
  have hnone : get_doc_by_id (rm oracles st [id]).st id = none := by
    unfold get_doc_by_id
    rw [hdocs]
    refine find?_filter_out _ _ _ (fun x hx => ?_)
    have : x.id = id := by simpa using hx
    simp [this, hdocid]
  refine ⟨ha, ?_, ?_, hnone, ?_⟩
  · rw [htasks]
    intro t ht
    rcases List.mem_filter.mp ht with ⟨_, hp⟩
    simpa using hp
  · rw [hindex]
    intro e he heq
    rcases List.mem_filter.mp he with ⟨hmem, hp⟩
    rcases hwf e hmem heq with ⟨h1, h2⟩
    simp [h1, h2, heq, hdocid] at hp
  · generalize hG : (rm oracles st [id]).st = stF at hnone ⊢
    simp [rm, rm_loop, rm_one, hacc, hnone]

/-- C5 oracles: every id passes the deletion-authorization check and the blob
store never raises. -/
def C5_oracles : RmOracles :=
  { accessible4deletion := fun _ => true, storage_rm_raises := fun _ _ => false }

/-- C5 example state: one fully linked document with a task row, an index
entry and a blob. -/
def C5_db : DB :=
  { kbs := [{ id := "k1", tenant_id := "t1", chunk_num := 3, token_num := 7,
              graphrag_task_id := "", raptor_task_id := "", mindmap_task_id := "" }],
    docs := [{ id := "d1", kb_id := "k1", parser_id := "naive", pipeline_id := "",
               run := TaskStatus_DONE, progress := 1, progress_msg := "",
               chunk_num := 3, token_num := 7, process_duration := 0 }],
    tasks := [{ id := "t1", doc_id := "d1", progress := 1 }],
    index := [{ tenant_id := "t1", kb_id := "k1", doc_id := "d1",
                knowledge_graph_kwd := "", available_int := 1 }],
    partitions := [("t1", "k1")],
    f2ds := [{ doc_id := "d1", file_id := "f1", bucket := "b1", name := "n1" }],
    files := [{ id := "f1", source_type := FileSource_KNOWLEDGEBASE }],
    blobs := [("b1", "n1")], field_maps := [] }

/-- C5 counterexample: the second delete of the same id is answered with the
`Document not found!` data error, not a success — refuting the claim that a
repeated delete is a no-op that succeeds. -/
theorem C5_counterexample :
    (rm C5_oracles (rm C5_oracles C5_db ["d1"]).st ["d1"]).answer
      = .dataError "Document not found!"
    ∧ (rm C5_oracles (rm C5_oracles C5_db ["d1"]).st ["d1"]).answer ≠ .okTrue := by
  exact ⟨by rfl, by decide⟩

/-- C5 witness: the amended deletion property at the concrete state
`C5_db`. -/
theorem C5_witness :
    (rm C5_oracles C5_db ["d1"]).answer = .okTrue
    ∧ (∀ t ∈ (rm C5_oracles C5_db ["d1"]).st.tasks, t.doc_id ≠ "d1")
    ∧ (∀ e ∈ (rm C5_oracles C5_db ["d1"]).st.index, e.doc_id ≠ "d1")
    ∧ get_doc_by_id (rm C5_oracles C5_db ["d1"]).st "d1" = none
    ∧ rm C5_oracles (rm C5_oracles C5_db ["d1"]).st ["d1"]
        = ⟨.dataError "Document not found!", (rm C5_oracles C5_db ["d1"]).st⟩ :=
  C5_delete_document C5_oracles C5_db "d1"
    { id := "d1", kb_id := "k1", parser_id := "naive", pipeline_id := "",
      run := TaskStatus_DONE, progress := 1, progress_msg := "",
      chunk_num := 3, token_num := 7, process_duration := 0 }
    { id := "k1", tenant_id := "t1", chunk_num := 3, token_num := 7,
      graphrag_task_id := "", raptor_task_id := "", mindmap_task_id := "" }
    "b1" "n1" (fun _ => rfl) (by rfl) (by rfl) (by rfl) (fun _ _ => rfl) (by decide)

/-- Helper: `find?` is unaffected by filtering with a predicate that every
`find?`-candidate satisfies. -/
theorem find?_filter_keep {α : Type} (l : List α) (p q : α → Bool)
    (h : ∀ x, p x = true → q x = true) : (l.filter q).find? p = l.find? p := by
  induction l with
  | nil => rfl
  | cons y ys ih =>
    by_cases hy : q y
    · by_cases hpy : p y
      · simp [List.filter_cons, hy, List.find?_cons, hpy]
      · simp [List.filter_cons, hy, List.find?_cons, hpy, ih]
    · have hpy : p y = false := by
        cases hp : p y
        · rfl
        · exact absurd (h y hp) (by simp [hy])
      simp [List.filter_cons, hy, List.find?_cons, hpy, ih]

/-- Helper: the first linkage row returned by the filter is the one `find?`
resolves. -/
theorem find?_eq_filter_head {α : Type} (l : List α) (p : α → Bool) (x : α)
    (xs : List α) (h : l.filter p = x :: xs) : l.find? p = some x := by
  induction l with
  | nil => simp at h
  | cons y ys ih =>
    by_cases hy : p y
    · simp [List.filter_cons, hy] at h
      obtain ⟨rfl, -⟩ := h
      simp [List.find?_cons, hy]
    · simp [List.filter_cons, hy] at h
      simp [List.find?_cons, hy]
      exact ih h

/-- Helper: whether an `rm` loop step completed normally. -/
def rm_step_is_ok : RmStep → Prop
  | .ok _ _ => True
  | .abort _ _ => False
  | .exc _ _ _ => False

/-- Helper: whether an `rm` loop step raised an exception. -/
def rm_step_is_exc : RmStep → Prop
  | .ok _ _ => False
  | .abort _ _ => False
  | .exc _ _ _ => True

/-- Helper: the record-store state carried by an `rm` loop step outcome. -/
def rm_step_st : RmStep → DB
  | .ok st _ => st
  | .abort _ st => st
  | .exc _ st _ => st

/-- Helper: the `kb_table_num_map` carried by an `rm` loop step outcome. -/
def rm_step_ktm : RmStep → List (String × Int)
  | .ok _ k => k
  | .abort _ _ => []
  | .exc _ _ k => k

/-- Helper: the error message carried by an `rm` loop step outcome. -/
def rm_step_msg : RmStep → String
  | .ok _ _ => ""
  | .abort m _ => m
  | .exc m _ _ => m

/-- Helper: a normally completed step lets the `rm` loop continue on the
produced state. -/
theorem rm_loop_cons_of_ok (oracles : RmOracles) (st : DB)
    (ktm : List (String × Int)) (errors : String) (id : String)
    (rest : List String) (h : rm_step_is_ok (rm_one oracles st ktm id)) :
    rm_loop oracles st ktm errors (id :: rest)
      = rm_loop oracles (rm_step_st (rm_one oracles st ktm id))
          (rm_step_ktm (rm_one oracles st ktm id)) errors rest := by
  cases hs : rm_one oracles st ktm id <;>
    simp [hs, rm_step_is_ok] at h ⊢ <;>
    simp [rm_loop, rm_step_st, rm_step_ktm, hs]

/-- Helper: a step that raised an exception accumulates its message and lets
the `rm` loop continue on the partially modified state. -/
theorem rm_loop_cons_of_exc (oracles : RmOracles) (st : DB)
    (ktm : List (String × Int)) (errors : String) (id : String)
    (rest : List String) (h : rm_step_is_exc (rm_one oracles st ktm id)) :
    rm_loop oracles st ktm errors (id :: rest)
      = rm_loop oracles (rm_step_st (rm_one oracles st ktm id))
          (rm_step_ktm (rm_one oracles st ktm id))
          (errors ++ rm_step_msg (rm_one oracles st ktm id)) rest := by
  cases hs : rm_one oracles st ktm id <;>
    simp [hs, rm_step_is_exc] at h ⊢ <;>
    simp [rm_loop, rm_step_st, rm_step_ktm, rm_step_msg, hs]

/-- Helper: processing one existing, linked document inside the `rm` loop
whose blob deletion does not raise completes normally, with the document's
task, index, document and linkage rows filtered out and the knowledge-base
and partition tables untouched. -/
theorem rm_one_ok_extract (oracles : RmOracles) (st : DB) (id : String)
    (doc : Document) (kb : Knowledgebase) (b n : String)
    (hdoc : get_doc_by_id st id = some doc)
    (hkb : get_kb_by_id st doc.kb_id = some kb)
    (hsa : get_storage_address st id = some (b, n))
    (hnoraise : oracles.storage_rm_raises b n = false) :
    rm_step_is_ok (rm_one oracles st [] id)
    ∧ (rm_step_st (rm_one oracles st [] id)).tasks
        = st.tasks.filter (fun t => !(t.doc_id == id))
    ∧ (rm_step_st (rm_one oracles st [] id)).index
        = st.index.filter (fun e =>
            !(e.tenant_id == kb.tenant_id && e.kb_id == doc.kb_id && e.doc_id == doc.id))
    ∧ (rm_step_st (rm_one oracles st [] id)).docs
        = st.docs.filter (fun d => !(d.id == doc.id))
    ∧ (rm_step_st (rm_one oracles st [] id)).kbs = st.kbs
    ∧ (rm_step_st (rm_one oracles st [] id)).partitions = st.partitions
    ∧ (rm_step_st (rm_one oracles st [] id)).f2ds
        = st.f2ds.filter (fun x => !(x.doc_id == id)) := by
  have htenant : get_tenant_id st id = some kb.tenant_id := by
    simp [get_tenant_id, hdoc, hkb]
  by_cases hpt : doc.parser_id = ParserType_TABLE <;>
  · cases hf2 : st.f2ds.filter (fun x => x.doc_id == id) with
    | nil =>
      refine ⟨?_, ?_, ?_, ?_, ?_, ?_, ?_⟩ <;>
        simp [rm_one, hdoc, htenant, hsa, hnoraise, hpt,
          rm_step_is_ok, rm_step_st, rm_step_ktm,
          remove_document, task_filter_delete_by_doc, index_delete_by_doc,
          file_filter_delete_kb_source, f2d_delete_by_document_id, storage_rm,
          delete_field_map, ktm_get, ktm_set, hf2, apply_ite]
    | cons f fs =>
      by_cases hcnt : 0 < (st.files.filter
          (fun x => x.source_type == FileSource_KNOWLEDGEBASE
            && x.id == f.file_id)).length <;>
      · refine ⟨?_, ?_, ?_, ?_, ?_, ?_, ?_⟩ <;>
          simp [rm_one, hdoc, htenant, hsa, hnoraise, hpt, hcnt,
            rm_step_is_ok, rm_step_st, rm_step_ktm,
            remove_document, task_filter_delete_by_doc, index_delete_by_doc,
            file_filter_delete_kb_source, f2d_delete_by_document_id, storage_rm,
            delete_field_map, ktm_get, ktm_set, hf2, apply_ite]

/-- Helper: processing a linked document whose blob deletion raises inside
the `rm` loop ends in a caught exception, with the already-applied steps
(task, index, document, file-linkage deletions) kept in the carried state. -/
theorem rm_one_exc_extract (oracles : RmOracles) (st : DB) (a : String)
    (da : Document) (kba : Knowledgebase) (fa : File2Document)
    (fsa : List File2Document)
    (hdoc : get_doc_by_id st a = some da)
    (hkb : get_kb_by_id st da.kb_id = some kba)
    (hf2 : st.f2ds.filter (fun x => x.doc_id == a) = fa :: fsa)
    (hcnt : 0 < (st.files.filter (fun x =>
        x.source_type == FileSource_KNOWLEDGEBASE && x.id == fa.file_id)).length)
    (hraise : oracles.storage_rm_raises fa.bucket fa.name = true) :
    rm_step_is_exc (rm_one oracles st [] a)
    ∧ rm_step_msg (rm_one oracles st [] a) = "Fail to remove object " ++ fa.name
    ∧ rm_step_ktm (rm_one oracles st [] a) = []
    ∧ (rm_step_st (rm_one oracles st [] a)).tasks
        = st.tasks.filter (fun t => !(t.doc_id == a))
    ∧ (rm_step_st (rm_one oracles st [] a)).index
        = st.index.filter (fun e =>
            !(e.tenant_id == kba.tenant_id && e.kb_id == da.kb_id && e.doc_id == da.id))
    ∧ (rm_step_st (rm_one oracles st [] a)).docs
        = st.docs.filter (fun d => !(d.id == da.id))
    ∧ (rm_step_st (rm_one oracles st [] a)).kbs = st.kbs
    ∧ (rm_step_st (rm_one oracles st [] a)).partitions = st.partitions
    ∧ (rm_step_st (rm_one oracles st [] a)).f2ds
        = st.f2ds.filter (fun x => !(x.doc_id == a)) := by
  have htenant : get_tenant_id st a = some kba.tenant_id := by
    simp [get_tenant_id, hdoc, hkb]
  have hsa : get_storage_address st a = some (fa.bucket, fa.name) := by
    simp [get_storage_address, find?_eq_filter_head st.f2ds _ fa fsa hf2]
  refine ⟨?_, ?_, ?_, ?_, ?_, ?_, ?_, ?_, ?_⟩ <;>
    simp [rm_one, hdoc, htenant, hsa, hraise, hcnt,
      rm_step_is_exc, rm_step_st, rm_step_ktm, rm_step_msg,
      remove_document, task_filter_delete_by_doc, index_delete_by_doc,
      file_filter_delete_kb_source, f2d_delete_by_document_id, storage_rm,
      delete_field_map, ktm_get, ktm_set, hf2, apply_ite]

/-- C6 (amended): in a bulk deletion, an id whose processing raises an
exception (here: a failing blob delete) has its error accumulated into the
request's error report while processing continues with the remaining ids,
and its already-applied steps (task/index/document-row deletion) are not
rolled back; the caller receives the accumulated report. -/
theorem C6_bulk_delete_exception_isolated (oracles : RmOracles) (st : DB)
    (a bid : String) (da db2 : Document) (kba kbb : Knowledgebase)
    (fa : File2Document) (fsa : List File2Document) (bb nb : String)
    (hacc : ∀ x, oracles.accessible4deletion x = true)
    (hab : a ≠ bid)
    (hdoca : get_doc_by_id st a = some da)
    (hkba : get_kb_by_id st da.kb_id = some kba)
    (hf2a : st.f2ds.filter (fun x => x.doc_id == a) = fa :: fsa)
    (hcnta : 0 < (st.files.filter (fun x =>
        x.source_type == FileSource_KNOWLEDGEBASE && x.id == fa.file_id)).length)
    (hraisea : oracles.storage_rm_raises fa.bucket fa.name = true)
    (hdocb : get_doc_by_id st bid = some db2)
    (hkbb : get_kb_by_id st db2.kb_id = some kbb)
    (hsab : get_storage_address st bid = some (bb, nb))
    (hnoraiseb : oracles.storage_rm_raises bb nb = false) :
    (rm oracles st [a, bid]).answer
        = .errorReport ("Fail to remove object " ++ fa.name)
    ∧ (∀ t ∈ (rm oracles st [a, bid]).st.tasks, t.doc_id ≠ a ∧ t.doc_id ≠ bid)
    ∧ get_doc_by_id (rm oracles st [a, bid]).st a = none
    ∧ get_doc_by_id (rm oracles st [a, bid]).st bid = none := by
  obtain ⟨hexc, hmsg, hktm, hTa, hIa, hDa, hKa, hPa, hFa⟩ :=
    rm_one_exc_extract oracles st a da kba fa fsa hdoca hkba hf2a hcnta hraisea
  have ida : da.id = a := get_doc_by_id_eq_some st a da hdoca
  have idb : db2.id = bid := get_doc_by_id_eq_some st bid db2 hdocb
  have hdocbE : get_doc_by_id (rm_step_st (rm_one oracles st [] a)) bid = some db2 := by
    unfold get_doc_by_id
    rw [hDa, find?_filter_keep]
    · exact hdocb
    · intro x hx
      have : x.id = bid := by simpa using hx
      simp [this, ida, Ne.symm hab]
  have hkbbE : get_kb_by_id (rm_step_st (rm_one oracles st [] a)) db2.kb_id
      = some kbb := by
    unfold get_kb_by_id
    rw [hKa]
    exact hkbb
  have hsabE : get_storage_address (rm_step_st (rm_one oracles st [] a)) bid
      = some (bb, nb) := by
    unfold get_storage_address
    rw [hFa, find?_filter_keep]
    · exact hsab
    · intro x hx
      have : x.doc_id = bid := by simpa using hx
      simp [this, Ne.symm hab]
  obtain ⟨hokb, hTb, hIb, hDb, hKb, hPb, hFb⟩ :=
    rm_one_ok_extract oracles (rm_step_st (rm_one oracles st [] a)) bid db2 kbb
      bb nb hdocbE hkbbE hsabE hnoraiseb
  have hmne : rm_step_msg (rm_one oracles st [] a) ≠ "" := by
    rw [hmsg]
    intro h
    have h2 := congrArg String.length h
    simp [String.length_append] at h2
    exact absurd h2.1 (by decide)
  have hrun : rm oracles st [a, bid]
      = ⟨.errorReport ("" ++ rm_step_msg (rm_one oracles st [] a)),
         rm_step_st (rm_one oracles
           (rm_step_st (rm_one oracles st [] a)) [] bid)⟩ := by
    have e1 : rm oracles st [a, bid] = rm_loop oracles st [] "" [a, bid] := by
      simp [rm, hacc]
    rw [e1, rm_loop_cons_of_exc oracles st [] "" a [bid] hexc, hktm,
      rm_loop_cons_of_ok oracles _ [] _ bid [] hokb]
    simp [rm_loop, hmne]
  refine ⟨?_, ?_, ?_, ?_⟩
  · rw [hrun, hmsg]
    simp
  · rw [hrun]
    intro t ht
    dsimp only at ht
    rw [hTb] at ht
    rcases List.mem_filter.mp ht with ⟨htE, hp2⟩
    rw [hTa] at htE
    rcases List.mem_filter.mp htE with ⟨-, hp1⟩
    exact ⟨by simpa using hp1, by simpa using hp2⟩
  · rw [hrun]
    unfold get_doc_by_id
    dsimp only
    rw [hDb, find?_filter_keep, hDa]
    · refine find?_filter_out _ _ _ (fun x hx => ?_)
      have : x.id = a := by simpa using hx
      simp [this, ida]
    · intro x hx
      have : x.id = a := by simpa using hx
      simp [this, idb, hab]
  · rw [hrun]
    unfold get_doc_by_id
    dsimp only
    rw [hDb]
    refine find?_filter_out _ _ _ (fun x hx => ?_)
    have : x.id = bid := by simpa using hx
    simp [this, idb]

/-- C6 counterexample state: the first id of the batch does not exist while
the second id is a fully linked document with an outstanding task. -/
def C6_db : DB :=
  { kbs := [{ id := "k1", tenant_id := "t1", chunk_num := 0, token_num := 0,
              graphrag_task_id := "", raptor_task_id := "", mindmap_task_id := "" }],
    docs := [{ id := "d2", kb_id := "k1", parser_id := "naive", pipeline_id := "",
               run := TaskStatus_DONE, progress := 1, progress_msg := "",
               chunk_num := 1, token_num := 1, process_duration := 0 }],
    tasks := [{ id := "t2", doc_id := "d2", progress := 1 }],
    index := [], partitions := [],
    f2ds := [{ doc_id := "d2", file_id := "f2", bucket := "b2", name := "n2" }],
    files := [{ id := "f2", source_type := FileSource_KNOWLEDGEBASE }],
    blobs := [("b2", "n2")], field_maps := [] }

/-- C6 counterexample: a missing first id aborts the whole bulk deletion with
a single data error and the second id is never processed (the state, and in
particular the second document's task row, is untouched) — refuting the
claim that every failure is accumulated while processing continues. -/
theorem C6_counterexample :
    (rm C5_oracles C6_db ["dmiss", "d2"]).answer = .dataError "Document not found!"
    ∧ (rm C5_oracles C6_db ["dmiss", "d2"]).st = C6_db
    ∧ C6_db.tasks = [{ id := "t2", doc_id := "d2", progress := 1 }] :=
  ⟨by rfl, by rfl, by rfl⟩

/-- C6 witness oracles: the blob store raises exactly for bucket `ba`. -/
def C6_oracles : RmOracles :=
  { accessible4deletion := fun _ => true,
    storage_rm_raises := fun b _ => b == "ba" }

/-- C6 witness state: two fully linked documents; the first one's blob lives
in the raising bucket. -/
def C6_wdb : DB :=
  { kbs := [{ id := "k1", tenant_id := "t1", chunk_num := 0, token_num := 0,
              graphrag_task_id := "", raptor_task_id := "", mindmap_task_id := "" }],
    docs := [{ id := "da1", kb_id := "k1", parser_id := "naive", pipeline_id := "",
               run := TaskStatus_DONE, progress := 1, progress_msg := "",
               chunk_num := 1, token_num := 1, process_duration := 0 },
             { id := "db1", kb_id := "k1", parser_id := "naive", pipeline_id := "",
               run := TaskStatus_DONE, progress := 1, progress_msg := "",
               chunk_num := 1, token_num := 1, process_duration := 0 }],
    tasks := [{ id := "ta", doc_id := "da1", progress := 1 },
              { id := "tb", doc_id := "db1", progress := 1 }],
    index := [], partitions := [],
    f2ds := [{ doc_id := "da1", file_id := "fa1", bucket := "ba", name := "na" },
             { doc_id := "db1", file_id := "fb1", bucket := "bb", name := "nb" }],
    files := [{ id := "fa1", source_type := FileSource_KNOWLEDGEBASE },
              { id := "fb1", source_type := FileSource_KNOWLEDGEBASE }],
    blobs := [("ba", "na"), ("bb", "nb")], field_maps := [] }

/-- C6 witness: the amended exception-isolation property at the concrete
two-document state `C6_wdb`. -/
theorem C6_witness :
    (rm C6_oracles C6_wdb ["da1", "db1"]).answer
        = .errorReport ("Fail to remove object " ++ "na")
    ∧ (∀ t ∈ (rm C6_oracles C6_wdb ["da1", "db1"]).st.tasks,
        t.doc_id ≠ "da1" ∧ t.doc_id ≠ "db1")
    ∧ get_doc_by_id (rm C6_oracles C6_wdb ["da1", "db1"]).st "da1" = none
    ∧ get_doc_by_id (rm C6_oracles C6_wdb ["da1", "db1"]).st "db1" = none :=
  C6_bulk_delete_exception_isolated C6_oracles C6_wdb "da1" "db1"
    { id := "da1", kb_id := "k1", parser_id := "naive", pipeline_id := "",
      run := TaskStatus_DONE, progress := 1, progress_msg := "",
      chunk_num := 1, token_num := 1, process_duration := 0 }
    { id := "db1", kb_id := "k1", parser_id := "naive", pipeline_id := "",
      run := TaskStatus_DONE, progress := 1, progress_msg := "",
      chunk_num := 1, token_num := 1, process_duration := 0 }
    { id := "k1", tenant_id := "t1", chunk_num := 0, token_num := 0,
      graphrag_task_id := "", raptor_task_id := "", mindmap_task_id := "" }
    { id := "k1", tenant_id := "t1", chunk_num := 0, token_num := 0,
      graphrag_task_id := "", raptor_task_id := "", mindmap_task_id := "" }
    { doc_id := "da1", file_id := "fa1", bucket := "ba", name := "na" } []
    "bb" "nb"
    (fun _ => rfl) (by decide) (by rfl) (by rfl) (by rfl) (by decide) (by rfl)
    (by rfl) (by rfl) (by rfl) (by rfl)

end Ragflow
